import Mathlib

/-!
# master-peng: configuration loading and reload protocol

A shallow embedding of `config.go` and `server.go`.

* A Go `string` is the list of its bytes (`Str`); a nil slice or nil pointer is `none`.
* The functions of Go's standard library that the program calls (`net.ParseCIDR`,
  `net.ParseMAC`, `IP.To4`, `IP.To16`, the `%q` verb of `fmt.Sprintf`) are embedded
  from the library sources of the Go release contemporary with the repository
  (Go 1.11, 2018), function by function, under their own names.
* `toml.DecodeFile` and the file system are the outside world: the outcome of decoding
  the file at a path is an input of the embedding (`Decoded`).
-/

namespace MasterPeng

set_option maxRecDepth 100000

/-! ## Go strings -/

/-- A Go string: its bytes, each below 256. -/
abbrev Str := List Nat

/-- The bytes of an ASCII literal. -/
def ascii (s : String) : Str := s.toList.map Char.toNat

/-! ## Package net: number parsing (parse.go) -/

/-- The constant `big` of parse.go: bigger than needed, not too big to overflow. -/
def big : Nat := 0xFFFFFF

/-- The loop of `dtoi`: `(n, i, ok)`; `ok = false` is the early return on `n >= big`. -/
def dtoiLoop : Str → Nat → Nat → Nat × Nat × Bool
  | [], n, i => (n, i, true)
  | c :: s, n, i =>
    if 48 ≤ c ∧ c ≤ 57 then
      if n * 10 + (c - 48) ≥ big then (big, i, false)
      else dtoiLoop s (n * 10 + (c - 48)) (i + 1)
    else (n, i, true)

/-- Decimal to integer: number, characters consumed, success. -/
def dtoi (s : Str) : Nat × Nat × Bool :=
  match dtoiLoop s 0 0 with
  | (n, i, false) => (n, i, false)
  | (n, i, true) => if i = 0 then (0, 0, false) else (n, i, true)

/-- The value of a hexadecimal digit byte, `none` for any other byte. -/
def hexDigit (c : Nat) : Option Nat :=
  if 48 ≤ c ∧ c ≤ 57 then some (c - 48)
  else if 97 ≤ c ∧ c ≤ 102 then some (c - 97 + 10)
  else if 65 ≤ c ∧ c ≤ 70 then some (c - 65 + 10)
  else none

/-- The loop of `xtoi`: `(n, i, ok)`; `ok = false` is the early return on `n >= big`. -/
def xtoiLoop : Str → Nat → Nat → Nat × Nat × Bool
  | [], n, i => (n, i, true)
  | c :: s, n, i =>
    match hexDigit c with
    | some d =>
      if n * 16 + d ≥ big then (0, i, false)
      else xtoiLoop s (n * 16 + d) (i + 1)
    | none => (n, i, true)

/-- Hexadecimal to integer: number, characters consumed, success. -/
def xtoi (s : Str) : Nat × Nat × Bool :=
  match xtoiLoop s 0 0 with
  | (n, i, false) => (n, i, false)
  | (n, i, true) => if i = 0 then (0, i, false) else (n, i, true)

/-- Converts the next two hex digits of `s` into a byte; if `s` is longer than two
bytes then the third byte must be `e`. -/
def xtoi2 (s : Str) (e : Nat) : Nat × Bool :=
  if s.length > 2 ∧ s.get? 2 ≠ some e then (0, false)
  else
    match xtoi (s.take 2) with
    | (n, ei, ok) => (n % 256, ok && decide (ei = 2))

/-! ## Package net: IP addresses (ip.go) -/

/-- A Go `net.IP` (a byte slice): `none` is the nil slice. -/
abbrev IP := Option (List Nat)

/-- A Go `net.IPMask` (a byte slice): `none` is the nil slice. -/
abbrev IPMask := Option (List Nat)

/-- The Go `len` of a possibly nil byte slice. -/
def len (b : Option (List Nat)) : Nat := (b.getD []).length

/-- A Go `net.IPNet`. -/
structure IPNet where
  IP : IP
  Mask : IPMask
deriving DecidableEq, Repr

def IPv4len : Nat := 4

def IPv6len : Nat := 16

/-- The twelve bytes that precede an IPv4 address in its 16-byte form. -/
def v4InV6Pfx : List Nat := [0, 0, 0, 0, 0, 0, 0, 0, 0, 0, 0xff, 0xff]

/-- The 16-byte form of the IPv4 address `a.b.c.d`. -/
def IPv4 (a b c d : Nat) : List Nat := v4InV6Pfx ++ [a, b, c, d]

/-- Converts to a 4-byte representation; nil when the address is not an IPv4 address. -/
def IP.To4 (ip : IP) : IP :=
  if len ip = IPv4len then ip
  else if len ip = IPv6len ∧ ((ip.getD []).take 10).all (· == 0)
      ∧ (ip.getD []).get? 10 = some 0xff ∧ (ip.getD []).get? 11 = some 0xff then
    some (((ip.getD []).drop 12).take 4)
  else none

/-- Converts to a 16-byte representation; nil when the length is neither 4 nor 16. -/
def IP.To16 (ip : IP) : IP :=
  if len ip = IPv4len then
    some (IPv4 ((ip.getD []).getD 0 0) ((ip.getD []).getD 1 0)
      ((ip.getD []).getD 2 0) ((ip.getD []).getD 3 0))
  else if len ip = IPv6len then ip
  else none

/-- The loop of `CIDRMask`: `l` bytes still to write, `n` one-bits still to place. -/
def CIDRMaskLoop : Nat → Nat → List Nat
  | 0, _ => []
  | l + 1, n =>
    if n ≥ 8 then 0xff :: CIDRMaskLoop l (n - 8)
    else (0xff - (0xff >>> n)) :: CIDRMaskLoop l 0

/-- The mask of `ones` one-bits followed by zeros up to `bits` bits in all. -/
def CIDRMask (ones bits : Nat) : IPMask :=
  if bits ≠ 8 * IPv4len ∧ bits ≠ 8 * IPv6len then none
  else if ones > bits then none
  else some (CIDRMaskLoop (bits / 8) ones)

/-- The address `ip` masked by `mask`. -/
def IP.Mask (ip : IP) (mask : IPMask) : IP :=
  let mask : IPMask :=
    if len mask = IPv6len ∧ len ip = IPv4len ∧ ((mask.getD []).take 12).all (· == 0xff) then
      some ((mask.getD []).drop 12)
    else mask
  let ip : IP :=
    if len mask = IPv4len ∧ len ip = IPv6len ∧ (ip.getD []).take 12 = v4InV6Pfx then
      some ((ip.getD []).drop 12)
    else ip
  if len ip ≠ len mask then none
  else some (List.zipWith (fun a b => a &&& b) (ip.getD []) (mask.getD []))

/-- The loop of `parseIPv4`, `k` octets still to read: the octets and the rest of `s`. -/
def parseIPv4Loop : Nat → Nat → Str → List Nat → Option (List Nat × Str)
  | 0, _, s, p => some (p, s)
  | k + 1, i, s, p =>
    if s.length = 0 then none
    else if i > 0 ∧ s.head? ≠ some 46 then none
    else
      let s := if i > 0 then s.tail else s
      match dtoi s with
      | (n, c, ok) =>
        if !ok || decide (n > 0xFF) then none
        else parseIPv4Loop k (i + 1) (s.drop c) (p.set i n)

/-- Parses an IPv4 address `d.d.d.d`; the result is in 16-byte form. -/
def parseIPv4 (s : Str) : IP :=
  match parseIPv4Loop IPv4len 0 s [0, 0, 0, 0] with
  | none => none
  | some (p, s) =>
    if s.length ≠ 0 then none
    else some (IPv4 (p.getD 0 0) (p.getD 1 0) (p.getD 2 0) (p.getD 3 0))

/-- The main loop of `parseIPv6`, `k` 16-bit groups of room left (`i = IPv6len - 2 * k`):
the state `(ip, ellipsis, i, s)` at loop exit, `none` where the source returns nil.
The position of the ellipsis is `none` where the source holds `-1`. -/
def parseIPv6Loop : Nat → List Nat → Option Nat → Nat → Str →
    Option (List Nat × Option Nat × Nat × Str)
  | 0, ip, ellipsis, i, s => some (ip, ellipsis, i, s)
  | k + 1, ip, ellipsis, i, s =>
    if ¬ i < IPv6len then some (ip, ellipsis, i, s)
    else
      match xtoi s with
      | (n, c, ok) =>
        if !ok || decide (n > 0xFFFF) then none
        else if c < s.length ∧ s.get? c = some 46 then
          if ellipsis = none ∧ i ≠ IPv6len - IPv4len then none
          else if i + IPv4len > IPv6len then none
          else
            match parseIPv4 s with
            | none => none
            | some ip4 =>
              some ((((ip.set i (ip4.getD 12 0)).set (i + 1) (ip4.getD 13 0)).set (i + 2)
                (ip4.getD 14 0)).set (i + 3) (ip4.getD 15 0), ellipsis, i + IPv4len, [])
        else
          let ip := (ip.set i ((n >>> 8) % 256)).set (i + 1) (n % 256)
          let i := i + 2
          let s := s.drop c
          if s.length = 0 then some (ip, ellipsis, i, s)
          else if s.head? ≠ some 58 ∨ s.length = 1 then none
          else
            let s := s.tail
            if s.head? = some 58 then
              if ellipsis ≠ none then none
              else
                let s := s.tail
                if s.length = 0 then some (ip, some i, i, s)
                else parseIPv6Loop k ip (some i) i s
            else parseIPv6Loop k ip ellipsis i s

/-- The expansion of the ellipsis at `e` when only `i` bytes were parsed: the bytes
`ip[e..i)` move up by `IPv6len - i`, then `ip[e..e + IPv6len - i)` are zeroed. -/
def expandEllipsis (ip : List Nat) (i e : Nat) : List Nat :=
  let n := IPv6len - i
  let ip := (List.range (i - e)).foldl
    (fun ip t => ip.set (i - 1 - t + n) (ip.getD (i - 1 - t) 0)) ip
  (List.range n).foldl (fun ip t => ip.set (e + n - 1 - t) 0) ip

/-- Parses an IPv6 address (RFC 4291, RFC 5952), no zone allowed. -/
def parseIPv6 (s : Str) : IP :=
  let ip := List.replicate IPv6len 0
  let leading : Bool := decide (s.length ≥ 2 ∧ s.get? 0 = some 58 ∧ s.get? 1 = some 58)
  if leading = true ∧ (s.drop 2).length = 0 then some ip
  else
    match parseIPv6Loop (IPv6len / 2) ip (if leading then some 0 else none) 0
        (if leading then s.drop 2 else s) with
    | none => none
    | some (ip, ellipsis, i, s) =>
      if s.length ≠ 0 then none
      else if i < IPv6len then
        match ellipsis with
        | none => none
        | some e => some (expandEllipsis ip i e)
      else if ellipsis ≠ none then none
      else some ip

/-! ## Errors -/

/-- The Go error values the program can return. -/
inductive GoError where
  /-- A `*net.ParseError` with its fields `Type` and `Text`. -/
  | ParseError (Typ Text : Str)
  /-- A `*net.AddrError` with its fields `Err` and `Addr`. -/
  | AddrError (Err Addr : Str)
  /-- The program's own `*configError` with its field `err`. -/
  | configError (err : Str)
  /-- An error of any other type, as `toml.DecodeFile` and `moduleTunnel.Reload` may
  return, with its message. -/
  | other (msg : Str)
deriving DecidableEq, Repr

/-- The method `Error` of `configError`; `none` for the other error types. -/
def GoError.configMessage : GoError → Option Str
  | .configError err => some err
  | _ => none

/-! ## Package net: CIDR and MAC parsing (ip.go, mac.go) -/

/-- The index of the first byte `c` in `s`; `none` where the source returns `-1`. -/
def IndexByteString (s : Str) (c : Nat) : Option Nat :=
  if s.indexOf c < s.length then some (s.indexOf c) else none

/-- Parses `s` as a CIDR address with length, such as `192.0.2.0/24` or
`2001:db8::/32`: the address, the network implied by address and length, the error. -/
def ParseCIDR (s : Str) : IP × Option IPNet × Option GoError :=
  match IndexByteString s 47 with
  | none => (none, none, some (.ParseError (ascii "CIDR address") s))
  | some i =>
    let addr := s.take i
    let mask := s.drop (i + 1)
    let iplen := if parseIPv4 addr = none then IPv6len else IPv4len
    let ip := if parseIPv4 addr = none then parseIPv6 addr else parseIPv4 addr
    match dtoi mask with
    | (n, j, ok) =>
      if ip = none ∨ ok = false ∨ j ≠ mask.length ∨ n > 8 * iplen then
        (none, none, some (.ParseError (ascii "CIDR address") s))
      else
        (ip, some { IP := IP.Mask ip (CIDRMask n (8 * iplen)), Mask := CIDRMask n (8 * iplen) },
          none)

/-- The loop of the colon or hyphen form of `ParseMAC`: `k` bytes still to read at
offset `x`, each followed by the separator `e`. -/
def ParseMACSep (s : Str) (e : Nat) : Nat → Nat → Option (List Nat)
  | 0, _ => some []
  | k + 1, x =>
    match xtoi2 (s.drop x) e with
    | (_, false) => none
    | (b, true) => (ParseMACSep s e k (x + 3)).map (b :: ·)

/-- The loop of the dotted form of `ParseMAC`: `k` byte pairs still to read at offset `x`. -/
def ParseMACDot (s : Str) (e : Nat) : Nat → Nat → Option (List Nat)
  | 0, _ => some []
  | k + 1, x =>
    match xtoi2 ((s.drop x).take 2) 0, xtoi2 (s.drop (x + 2)) e with
    | (b0, true), (b1, true) => (ParseMACDot s e k (x + 5)).map (fun hw => b0 :: b1 :: hw)
    | _, _ => none

/-- Parses `s` as an IEEE 802 MAC-48, EUI-48, EUI-64 or 20-octet IP over InfiniBand
link-layer address. -/
def ParseMAC (s : Str) : Option (List Nat) × Option GoError :=
  let failure : Option (List Nat) × Option GoError :=
    (none, some (.AddrError (ascii "invalid MAC address") s))
  if s.length < 14 then failure
  else if s.get? 2 = some 58 ∨ s.get? 2 = some 45 then
    if (s.length + 1) % 3 ≠ 0 then failure
    else
      let n := (s.length + 1) / 3
      if n ≠ 6 ∧ n ≠ 8 ∧ n ≠ 20 then failure
      else
        match ParseMACSep s (s.getD 2 0) n 0 with
        | none => failure
        | some hw => (some hw, none)
  else if s.get? 4 = some 46 then
    if (s.length + 1) % 5 ≠ 0 then failure
    else
      let n := 2 * (s.length + 1) / 5
      if n ≠ 6 ∧ n ≠ 8 ∧ n ≠ 20 then failure
      else
        match ParseMACDot s (s.getD 4 0) (n / 2) 0 with
        | none => failure
        | some hw => (some hw, none)
  else failure

/-! ## Packages unicode/utf8 and strconv: the `%q` verb -/

/-- The Unicode replacement character, `utf8.RuneError`. -/
def RuneError : Nat := 0xFFFD

/-- The table `first` of utf8.go: information about the first byte of an encoding. -/
def first (b : Nat) : Nat :=
  if b < 0x80 then 0xF0
  else if b < 0xC2 then 0xF1
  else if b < 0xE0 then 0x02
  else if b = 0xE0 then 0x13
  else if b < 0xED then 0x03
  else if b = 0xED then 0x23
  else if b < 0xF0 then 0x03
  else if b = 0xF0 then 0x34
  else if b < 0xF4 then 0x04
  else if b = 0xF4 then 0x44
  else 0xF1

/-- The table `acceptRanges` of utf8.go: the range allowed for the second byte. -/
def acceptRanges : Nat → Nat × Nat
  | 0 => (0x80, 0xBF)
  | 1 => (0xA0, 0xBF)
  | 2 => (0x80, 0x9F)
  | 3 => (0x90, 0xBF)
  | 4 => (0x80, 0x8F)
  | _ => (0, 0)

/-- Unpacks the first UTF-8 encoding in `s`: the rune and its width in bytes; an
invalid encoding gives `(RuneError, 1)`, the empty string `(RuneError, 0)`. -/
def DecodeRuneInString (s : Str) : Nat × Nat :=
  match s with
  | [] => (RuneError, 0)
  | s0 :: _ =>
    if first s0 ≥ 0xF0 then (if first s0 % 2 = 1 then RuneError else s0, 1)
    else if s.length < first s0 % 8 then (RuneError, 1)
    else if s.getD 1 0 < (acceptRanges (first s0 / 16)).1
        ∨ (acceptRanges (first s0 / 16)).2 < s.getD 1 0 then (RuneError, 1)
    else if first s0 % 8 ≤ 2 then ((s0 % 32) * 64 + s.getD 1 0 % 64, 2)
    else if s.getD 2 0 < 0x80 ∨ 0xBF < s.getD 2 0 then (RuneError, 1)
    else if first s0 % 8 ≤ 3 then
      ((s0 % 16) * 4096 + (s.getD 1 0 % 64) * 64 + s.getD 2 0 % 64, 3)
    else if s.getD 3 0 < 0x80 ∨ 0xBF < s.getD 3 0 then (RuneError, 1)
    else
      ((s0 % 8) * 262144 + (s.getD 1 0 % 64) * 4096 + (s.getD 2 0 % 64) * 64
        + s.getD 3 0 % 64, 4)

/-- The UTF-8 encoding of the rune `r`; an invalid rune is encoded as `RuneError`. -/
def EncodeRune (r : Nat) : Str :=
  if r ≤ 0x7F then [r]
  else if r ≤ 0x7FF then [0xC0 + r / 64, 0x80 + r % 64]
  else if r > 0x10FFFF ∨ (0xD800 ≤ r ∧ r ≤ 0xDFFF) then [0xEF, 0xBF, 0xBD]
  else if r ≤ 0xFFFF then [0xE0 + r / 4096, 0x80 + (r / 64) % 64, 0x80 + r % 64]
  else [0xF0 + r / 262144, 0x80 + (r / 4096) % 64, 0x80 + (r / 64) % 64, 0x80 + r % 64]

/-- The function `strconv.IsPrint`: exact on Latin-1; above `0xFF` the source searches
the generated tables of isprint.go, which enter here as `isPrintTable`. -/
def IsPrint (isPrintTable : Nat → Bool) (r : Nat) : Bool :=
  if r ≤ 0xFF then
    if 0x20 ≤ r ∧ r ≤ 0x7E then true
    else if 0xA1 ≤ r ∧ r ≤ 0xFF then decide (r ≠ 0xAD)
    else false
  else isPrintTable r

/-- The digit `lowerhex[d]`, for `d < 16`. -/
def lowerhex (d : Nat) : Nat := if d < 10 then 48 + d else 97 + (d - 10)

/-- The bytes `appendEscapedRune` appends for the rune `r`, quote `"`, neither
ASCII-only nor graphic-only. -/
def appendEscapedRune (isPrintTable : Nat → Bool) (r : Nat) : Str :=
  if r = 34 ∨ r = 92 then [92, r]
  else if IsPrint isPrintTable r = true then EncodeRune r
  else if r = 7 then [92, 97]
  else if r = 8 then [92, 98]
  else if r = 12 then [92, 102]
  else if r = 10 then [92, 110]
  else if r = 13 then [92, 114]
  else if r = 9 then [92, 116]
  else if r = 11 then [92, 118]
  else if r < 32 then [92, 120, lowerhex (r / 16), lowerhex (r % 16)]
  else if r > 0x10FFFF then [92, 117, 102, 102, 102, 100]
  else if r < 0x10000 then
    [92, 117, lowerhex (r / 4096 % 16), lowerhex (r / 256 % 16), lowerhex (r / 16 % 16),
      lowerhex (r % 16)]
  else
    [92, 85, lowerhex (r / 268435456 % 16), lowerhex (r / 16777216 % 16),
      lowerhex (r / 1048576 % 16), lowerhex (r / 65536 % 16), lowerhex (r / 4096 % 16),
      lowerhex (r / 256 % 16), lowerhex (r / 16 % 16), lowerhex (r % 16)]

/-- The loop of `appendQuotedWith`: the bytes appended for `s`, of which the first
`skip` bytes belong to a rune already written. -/
def appendQuotedLoop (isPrintTable : Nat → Bool) : Nat → Str → Str
  | _, [] => []
  | skip + 1, _ :: s => appendQuotedLoop isPrintTable skip s
  | 0, b :: s =>
    let rw : Nat × Nat := if b ≥ 0x80 then DecodeRuneInString (b :: s) else (b, 1)
    (if rw.2 = 1 ∧ rw.1 = RuneError then [92, 120, lowerhex (b / 16), lowerhex (b % 16)]
      else appendEscapedRune isPrintTable rw.1)
      ++ appendQuotedLoop isPrintTable (rw.2 - 1) s

/-- The string `strconv.Quote(s)`, which is what the verb `%q` of `fmt.Sprintf` prints
for a string operand: a double-quoted Go string literal. -/
def Quote (isPrintTable : Nat → Bool) (s : Str) : Str :=
  [34] ++ appendQuotedLoop isPrintTable 0 s ++ [34]

/-! ## config.go: the data model -/

/-- A Go `float64`, carried as its 64 bits; the program never computes with it. -/
structure float64 where
  bits : Nat
deriving DecidableEq, Repr

structure configInterface where
  DeviceName : Str
  HardwareAddr : Str
  hardwareAddr : Option (List Nat)
  IPv4 : Str
  ipv4Addr : IP
  ipv4Net : Option IPNet
  IPv6 : Str
  ipv6Addr : IP
  ipv6Net : Option IPNet
deriving DecidableEq, Repr

structure configGaussDistribution where
  Mean : float64
  Stdev : float64
deriving DecidableEq, Repr

structure configBandwidth where
  Enabled : Bool
  LeftToRightMbps : float64
  RightToLeftMbps : float64
deriving DecidableEq, Repr

structure configBufferBloat where
  Enabled : Bool
  LeftToRightPackets : Nat
  RightToLeftPackets : Nat
deriving DecidableEq, Repr

structure configCutoff where
  Enabled : Bool
  LeftToRightLoss : float64
  LeftToRightOn : configGaussDistribution
  LeftToRightOff : configGaussDistribution
  RightToLeftLoss : float64
  RightToLeftOn : configGaussDistribution
  RightToLeftOff : configGaussDistribution
deriving DecidableEq, Repr

structure configDNSPoisonRule where
  Zone : Str
  Addr : List IP
  TTL : Nat
  DropUDP : Bool
  ResetTCP : Bool
deriving DecidableEq, Repr

structure configDNSPoison where
  Enabled : Bool
  Rules : List configDNSPoisonRule
deriving DecidableEq, Repr

structure configDPIRule where
  Ports : List Nat
  Keyword : Str
  BlockWholeIP : Bool
  LeftToRightLoss : float64
  RightToLeftLoss : float64
  ResetTCP : Bool
  CooldownTime : float64
deriving DecidableEq, Repr

structure configDPI where
  Enabled : Bool
  Rules : List configDPIRule
deriving DecidableEq, Repr

structure configFakeTracerouteHop where
  Address : IP
  RTT : float64
deriving DecidableEq, Repr

structure configFakeTracerouteRule where
  Address : Str
  addressCIDR : Option IPNet
  Hops : List configFakeTracerouteHop
  Unreachable : Bool
  Blackhole : Bool
deriving DecidableEq, Repr

structure configFakeTraceroute where
  Enabled : Bool
  Rules : List configFakeTracerouteRule
deriving DecidableEq, Repr

structure configIPFirewallRule where
  Address : Str
  addressCIDR : Option IPNet
  L4Protocols : List Nat
  Ports : List Nat
  LeftToRightLoss : float64
  RightToLeftLoss : float64
  SourceToDestLoss : float64
  DestToSourceLoss : float64
  ResetTCP : Bool
deriving DecidableEq, Repr

structure configIPFirewall where
  Enabled : Bool
  Rules : List configIPFirewallRule
deriving DecidableEq, Repr

structure configLatency where
  Enabled : Bool
  MaxBufferSize : Nat
  LeftToRight : configGaussDistribution
  RightToLeft : configGaussDistribution
  SimulateTunnel : Bool
  ExcludeICMP : Bool
deriving DecidableEq, Repr

structure configLoss where
  Enabled : Bool
  LeftToRight : float64
  RightToLeft : float64
  ExcludeICMP : Bool
deriving DecidableEq, Repr

structure config where
  Left : configInterface
  Right : configInterface
  Bandwidth : configBandwidth
  BufferBloat : configBufferBloat
  Cutoff : configCutoff
  DNSPoison : configDNSPoison
  DPI : configDPI
  FakeTraceroute : configFakeTraceroute
  IPFirewall : configIPFirewall
  Latency : configLatency
  Loss : configLoss
deriving DecidableEq, Repr

/-! ## config.go: parsing -/

/-- Lines 87-91 of `configInterface.parse`: the hardware address. The state after the
step and the error it returns, `none` when the method goes on. -/
def configInterface.parseHardwareAddr (c : configInterface) :
    configInterface × Option GoError :=
  if c.HardwareAddr ≠ [] then
    match ParseMAC c.HardwareAddr with
    | (hw, some err) => ({ c with hardwareAddr := hw }, some err)
    | (hw, none) => ({ c with hardwareAddr := hw }, none)
  else (c, none)

/-- Lines 92-101 of `configInterface.parse`: the IPv4 field. -/
def configInterface.parseIPv4Field (isPrintTable : Nat → Bool) (c : configInterface) :
    configInterface × Option GoError :=
  if c.IPv4 ≠ [] then
    match ParseCIDR c.IPv4 with
    | (ip, ipnet, some err) => ({ c with ipv4Addr := ip, ipv4Net := ipnet }, some err)
    | (ip, ipnet, none) =>
      match IP.To4 ip with
      | none =>
        ({ c with ipv4Addr := ip, ipv4Net := ipnet },
          some (.configError (ascii "invalid IPv4 " ++ Quote isPrintTable c.IPv4)))
      | some ipv4Addr => ({ c with ipv4Addr := some ipv4Addr, ipv4Net := ipnet }, none)
  else (c, none)

/-- Lines 102-111 of `configInterface.parse`: the IPv6 field. -/
def configInterface.parseIPv6Field (isPrintTable : Nat → Bool) (c : configInterface) :
    configInterface × Option GoError :=
  if c.IPv6 ≠ [] then
    match ParseCIDR c.IPv6 with
    | (ip, ipnet, some err) => ({ c with ipv6Addr := ip, ipv6Net := ipnet }, some err)
    | (ip, ipnet, none) =>
      match IP.To16 ip with
      | none =>
        ({ c with ipv6Addr := ip, ipv6Net := ipnet },
          some (.configError (ascii "invalid IPv6 " ++ Quote isPrintTable c.IPv6)))
      | some ipv6Addr => ({ c with ipv6Addr := some ipv6Addr, ipv6Net := ipnet }, none)
  else (c, none)

/-- The method `(c *configInterface) parse() error`: the receiver after the call and
the error returned (`none` is nil). The three steps run in order, the first error
returns. -/
def configInterface.parse (isPrintTable : Nat → Bool) (c : configInterface) :
    configInterface × Option GoError :=
  match c.parseHardwareAddr with
  | (c, some err) => (c, some err)
  | (c, none) =>
    match c.parseIPv4Field isPrintTable with
    | (c, some err) => (c, some err)
    | (c, none) =>
      match c.parseIPv6Field isPrintTable with
      | (c, some err) => (c, some err)
      | (c, none) => (c, none)

/-- The method `(c *configFakeTracerouteRule) parse() error`: the receiver after the
call and the error returned. -/
def configFakeTracerouteRule.parse (c : configFakeTracerouteRule) :
    configFakeTracerouteRule × Option GoError :=
  match ParseCIDR c.Address with
  | (_, ipnet, some err) => ({ c with addressCIDR := ipnet }, some err)
  | (_, ipnet, none) => ({ c with addressCIDR := ipnet }, none)

/-- The loop `for _, rule := range c.Rules` of `configFakeTraceroute.parse`. The loop
variable `rule` is a copy of the element: `rule.parse()` writes `addressCIDR` into the
copy, which the next iteration overwrites, and the slice element is not touched; only
the error leaves the loop. -/
def configFakeTraceroute.parseRules : List configFakeTracerouteRule → Option GoError
  | [] => none
  | rule :: rules =>
    match rule.parse with
    | (_, some err) => some err
    | (_, none) => configFakeTraceroute.parseRules rules

/-- The method `(c *configFakeTraceroute) parse() error`. -/
def configFakeTraceroute.parse (c : configFakeTraceroute) :
    configFakeTraceroute × Option GoError :=
  (c, configFakeTraceroute.parseRules c.Rules)

/-- The method `(c *configIPFirewallRule) parse() error`: the receiver after the call
and the error returned. -/
def configIPFirewallRule.parse (c : configIPFirewallRule) :
    configIPFirewallRule × Option GoError :=
  match ParseCIDR c.Address with
  | (_, ipnet, some err) => ({ c with addressCIDR := ipnet }, some err)
  | (_, ipnet, none) => ({ c with addressCIDR := ipnet }, none)

/-- The loop `for _, rule := range c.Rules` of `configIPFirewall.parse`; as in
`configFakeTraceroute.parseRules` the loop variable is a copy of the element. -/
def configIPFirewall.parseRules : List configIPFirewallRule → Option GoError
  | [] => none
  | rule :: rules =>
    match rule.parse with
    | (_, some err) => some err
    | (_, none) => configIPFirewall.parseRules rules

/-- The method `(c *configIPFirewall) parse() error`. -/
def configIPFirewall.parse (c : configIPFirewall) : configIPFirewall × Option GoError :=
  (c, configIPFirewall.parseRules c.Rules)

/-! ## config.go: loading -/

/-- The outcome of `toml.DecodeFile(configFile, c)` on a fresh `c := &config{}`. -/
inductive Decoded where
  /-- The file could not be read or decoded: the error returned. -/
  | failure (err : GoError)
  /-- The file decoded: the value of `*c` afterwards, and `key.String()` for each key
  of `metadata.Undecoded()`, in order. -/
  | success (c : config) (undecoded : List Str)
deriving DecidableEq, Repr

/-- The function `loadConfig(configFile string) (*config, error)`. `DecodeFile` is the
state of the configuration source; `isPrintTable` the Unicode table behind `%q`.
The four `parse` calls are statements: their error results are discarded. -/
def loadConfig (isPrintTable : Nat → Bool) (DecodeFile : Str → Decoded) (configFile : Str) :
    Option config × Option GoError :=
  match DecodeFile configFile with
  | .failure err => (none, some err)
  | .success c undecoded =>
    match undecoded with
    | key :: _ =>
      (none, some (.configError (ascii "unknown option " ++ Quote isPrintTable key)))
    | [] =>
      let c := { c with Left := (c.Left.parse isPrintTable).1 }
      let c := { c with Right := (c.Right.parse isPrintTable).1 }
      let c := { c with FakeTraceroute := c.FakeTraceroute.parse.1 }
      let c := { c with IPFirewall := c.IPFirewall.parse.1 }
      (some c, none)

/-! ## server.go -/

/-- A Go channel value: `none` is the nil channel, `some k` the channel made by the
`k`-th `make`. -/
abbrev chan := Option Nat

structure moduleChain where
  Bandwidth : chan
  FakeTraceroute : chan
  Cutoff : chan
  Loss : chan
  DNSPoison : chan
  DPI : chan
  IPFirewall : chan
  Latency : chan
  BufferBloat : chan
  Output : chan
deriving DecidableEq, Repr

structure moduleLayer where
  In : chan
  Out : chan
  Last : chan
deriving DecidableEq, Repr

/-- The struct `server`; `conf` is the pointer read and written atomically, `none`
when nil. -/
structure server where
  confPath : Str
  conf : Option config
  SIGHUP : chan
  Left : configInterface
  Right : configInterface
  LeftToRight : moduleChain
  RightToLeft : moduleChain
deriving DecidableEq, Repr

/-- The fields of `moduleTunnel` that the struct literal in `newServer` sets; its field
`Server` points back to the server it is built for. -/
structure moduleTunnel where
  LeftToRight : moduleLayer
  RightToLeft : moduleLayer
deriving DecidableEq, Repr

/-- The zero value of `configInterface`. -/
def configInterface.zero : configInterface :=
  { DeviceName := [], HardwareAddr := [], hardwareAddr := none, IPv4 := [], ipv4Addr := none,
    ipv4Net := none, IPv6 := [], ipv6Addr := none, ipv6Net := none }

/-- The zero value of `moduleChain`: every channel nil. -/
def moduleChain.zero : moduleChain :=
  { Bandwidth := none, FakeTraceroute := none, Cutoff := none, Loss := none,
    DNSPoison := none, DPI := none, IPFirewall := none, Latency := none,
    BufferBloat := none, Output := none }

/-- The method `(s *server) GetConf() *config`. -/
def server.GetConf (s : server) : Option config := s.conf

/-- The method `(s *server) Reload() error`: the server after the call and the error
returned. -/
def server.Reload (isPrintTable : Nat → Bool) (DecodeFile : Str → Decoded) (s : server) :
    server × Option GoError :=
  match loadConfig isPrintTable DecodeFile s.confPath with
  | (_, some err) => (s, some err)
  | (conf, none) => ({ s with conf := conf }, none)

/-- The struct literal `&server{confPath: confPath, SIGHUP: make(chan os.Signal, 1)}`
that `newServer` starts from: every other field has its zero value. -/
def server.literal (confPath : Str) : server :=
  { confPath := confPath, conf := none, SIGHUP := some 0,
    Left := configInterface.zero, Right := configInterface.zero,
    LeftToRight := moduleChain.zero, RightToLeft := moduleChain.zero }

/-- The running system after `newServer`: the server and the tunnel that the reload
goroutine has captured. -/
structure pipeline where
  s : server
  modTunnel : moduleTunnel
deriving DecidableEq, Repr

/-- The function `newServer(confPath string) (*server, error)`, up to the start of the
reload goroutine; with the server comes the `modTunnel` the goroutine captures. -/
def newServer (isPrintTable : Nat → Bool) (DecodeFile : Str → Decoded) (confPath : Str) :
    Option pipeline × Option GoError :=
  match server.Reload isPrintTable DecodeFile (server.literal confPath) with
  | (_, some err) => (none, some err)
  | (s, none) =>
    (some { s := s,
            modTunnel :=
              { LeftToRight := { In := none, Out := s.LeftToRight.Output,
                                 Last := s.LeftToRight.Output },
                RightToLeft := { In := none, Out := s.RightToLeft.Output,
                                 Last := s.RightToLeft.Output } } }, none)

/-- What a call of `moduleTunnel.Reload` may change: the two module chains of the
server and the tunnel itself. -/
structure chains where
  LeftToRight : moduleChain
  RightToLeft : moduleChain
  modTunnel : moduleTunnel
deriving DecidableEq, Repr

/-- Modelled from the spec: `moduleTunnel.Reload`, whose source is not in the
repository. The spec has the reload controller publish the snapshot and then "ask the
Tunnel to rebuild the chains against the new snapshot": the method is any function
from the published snapshot and the current chains to new chains and an error. -/
abbrev TunnelReload := Option config → chains → chains × Option GoError

/-- One iteration of the loop of the reload goroutine, after a SIGHUP was received:
the pipeline afterwards and the errors passed to `log.Println`. -/
def reloadOnce (isPrintTable : Nat → Bool) (tunnelReload : TunnelReload)
    (DecodeFile : Str → Decoded) (p : pipeline) : pipeline × List GoError :=
  match server.Reload isPrintTable DecodeFile p.s with
  | (s, some err) => ({ p with s := s }, [err])
  | (s, none) =>
    match tunnelReload s.GetConf
        { LeftToRight := s.LeftToRight, RightToLeft := s.RightToLeft,
          modTunnel := p.modTunnel } with
    | (ch, err) =>
      ({ s := { s with LeftToRight := ch.LeftToRight, RightToLeft := ch.RightToLeft },
         modTunnel := ch.modTunnel },
        match err with
        | some err => [err]
        | none => [])

/-- The reload goroutine `for { <-s.SIGHUP; ... }` over the SIGHUPs received, each
with the state of the configuration source at that time: the pipeline after the last
of them and everything logged. -/
def reloadLoop (isPrintTable : Nat → Bool) (tunnelReload : TunnelReload) :
    List (Str → Decoded) → pipeline → pipeline × List GoError
  | [], p => (p, [])
  | DecodeFile :: rest, p =>
    match reloadOnce isPrintTable tunnelReload DecodeFile p with
    | (p, logged) =>
      match reloadLoop isPrintTable tunnelReload rest p with
      | (p, logged2) => (p, logged ++ logged2)

/-! ## Concrete configurations -/

/-- The zero value of `config`: what decoding an empty file leaves in `*c`. -/
def config.zero : config :=
  { Left := configInterface.zero, Right := configInterface.zero,
    Bandwidth := ⟨false, ⟨0⟩, ⟨0⟩⟩, BufferBloat := ⟨false, 0, 0⟩,
    Cutoff := ⟨false, ⟨0⟩, ⟨⟨0⟩, ⟨0⟩⟩, ⟨⟨0⟩, ⟨0⟩⟩, ⟨0⟩, ⟨⟨0⟩, ⟨0⟩⟩, ⟨⟨0⟩, ⟨0⟩⟩⟩,
    DNSPoison := ⟨false, []⟩, DPI := ⟨false, []⟩, FakeTraceroute := ⟨false, []⟩,
    IPFirewall := ⟨false, []⟩, Latency := ⟨false, 0, ⟨⟨0⟩, ⟨0⟩⟩, ⟨⟨0⟩, ⟨0⟩⟩, false, false⟩,
    Loss := ⟨false, ⟨0⟩, ⟨0⟩, false⟩ }

/-- A file that sets only `Left.IPv4 = "10.0.0.0"`, an address without a length. -/
def cfgLeftNoLength : config :=
  { config.zero with Left := { configInterface.zero with IPv4 := ascii "10.0.0.0" } }

/-- A FakeTraceroute rule as decoded from a file that gives it only an `Address`. -/
def traceRule (address : Str) : configFakeTracerouteRule :=
  { Address := address, addressCIDR := none, Hops := [], Unreachable := false,
    Blackhole := false }

/-- An IPFirewall rule as decoded from a file that gives it only an `Address`. -/
def firewallRule (address : Str) : configIPFirewallRule :=
  { Address := address, addressCIDR := none, L4Protocols := [], Ports := [],
    LeftToRightLoss := ⟨0⟩, RightToLeftLoss := ⟨0⟩, SourceToDestLoss := ⟨0⟩,
    DestToSourceLoss := ⟨0⟩, ResetTCP := false }

/-- A file with one FakeTraceroute rule whose `Address` is missing (empty) and one
IPFirewall rule whose `Address` is `"10.0.0.0"`. -/
def cfgBadRules : config :=
  { config.zero with
    FakeTraceroute := ⟨true, [traceRule []]⟩,
    IPFirewall := ⟨true, [firewallRule (ascii "10.0.0.0")]⟩ }

/-- A file with one FakeTraceroute rule and one IPFirewall rule, both with the valid
`Address = "10.0.0.0/24"`. -/
def cfgGoodRules : config :=
  { config.zero with
    FakeTraceroute := ⟨true, [traceRule (ascii "10.0.0.0/24")]⟩,
    IPFirewall := ⟨true, [firewallRule (ascii "10.0.0.0/24")]⟩ }

/-- A file that sets only `Loss.Enabled = true`. -/
def cfgLoss : config :=
  { config.zero with Loss := ⟨true, ⟨0⟩, ⟨0⟩, false⟩ }

/-- A configuration source in which every path decodes to `c` with no key left over. -/
def sourceOf (c : config) : Str → Decoded := fun _ => .success c []

/-- A configuration source in which every path decodes, leaving the key `Foo`. -/
def sourceUnknownKey : Str → Decoded := fun _ => .success config.zero [ascii "Foo"]

/-- A tunnel rebuild that fails and touches nothing. -/
def tunnelFails : TunnelReload := fun _ ch => (ch, some (.other (ascii "rebuild failed")))

/-- A running pipeline whose published snapshot is the zero configuration. -/
def pipelineZero : pipeline :=
  { s := { server.literal (ascii "peng.toml") with conf := some config.zero },
    modTunnel := { LeftToRight := ⟨none, none, none⟩, RightToLeft := ⟨none, none, none⟩ } }

/-! ## Predicates and inputs of the statements -/

/-- A byte that `%q` prints as itself: printable ASCII other than `"` and `\`. -/
def plainByte (b : Nat) : Prop := 0x20 ≤ b ∧ b ≤ 0x7E ∧ b ≠ 34 ∧ b ≠ 92

instance plainByte.decidable (b : Nat) : Decidable (plainByte b) := by
  unfold plainByte
  infer_instance

/-- The network that the CIDR string `s` denotes for the parsed address `ip`: with
`ones` the decimal length after the slash and `bits` the width of the textual address
family (32 for dotted IPv4 text, else 128), the mask is `ones` one-bits out of `bits`
and the network address is `ip` under that mask. -/
def maskedNetwork (s : Str) (ip : IP) (ipnet : IPNet) : Prop :=
  ∃ i ones, IndexByteString s 47 = some i
    ∧ dtoi (s.drop (i + 1)) = (ones, (s.drop (i + 1)).length, true)
    ∧ ones ≤ (if parseIPv4 (s.take i) = none then 128 else 32)
    ∧ ip = (if parseIPv4 (s.take i) = none then parseIPv6 (s.take i) else parseIPv4 (s.take i))
    ∧ ipnet.Mask = CIDRMask ones (if parseIPv4 (s.take i) = none then 128 else 32)
    ∧ ipnet.IP = IP.Mask ip ipnet.Mask

/-- The byte `k` of the mask of the specification, the mask with `ones` leading
one-bits: all ones when the byte lies before bit `ones`, zero when it lies after, and
otherwise its top `ones - 8 * k` bits. -/
def leadingOnesByte (ones k : Nat) : Nat :=
  if 8 * (k + 1) ≤ ones then 255
  else if ones ≤ 8 * k then 0
  else 256 - 2 ^ (8 - (ones - 8 * k))

/-- The network of the specification for the address bytes `addr` and the length
`ones`: the mask with `ones` leading one-bits, as long as the address, and the address
with every bit outside the mask cleared. Written from the words "network" and "mask
/n", without `IP.Mask` and `CIDRMask`. -/
def networkOf (addr : List Nat) (ones : Nat) : IPNet :=
  { IP := some ((List.range addr.length).map (fun k => addr.getD k 0 &&& leadingOnesByte ones k)),
    Mask := some ((List.range addr.length).map (leadingOnesByte ones)) }

/-- The number that a string of decimal digits denotes. -/
def decimalValue (t : Str) : Nat := t.foldl (fun n c => 10 * n + (c - 48)) 0

/-- The string `s` reads `address/length`: `addrText` up to the first slash, then a
non-empty run of decimal digits that denotes `ones`. -/
def hasLength (s addrText : Str) (ones : Nat) : Prop :=
  ∃ lenText, s = addrText ++ 47 :: lenText ∧ 47 ∉ addrText ∧ lenText ≠ []
    ∧ (∀ c ∈ lenText, 48 ≤ c ∧ c ≤ 57) ∧ ones = decimalValue lenText

/-- An interface as decoded from a file that sets `IPv4` and `IPv6`. -/
def ifaceBoth (v4 v6 : Str) : configInterface :=
  { configInterface.zero with IPv4 := v4, IPv6 := v6 }

/-- An interface as decoded from a file that sets only `IPv4`. -/
def ifaceIPv4 (s : Str) : configInterface := { configInterface.zero with IPv4 := s }

/-- An interface as decoded from a file that sets only `IPv6`. -/
def ifaceIPv6 (s : Str) : configInterface := { configInterface.zero with IPv6 := s }

/-- The string is a valid MAC: `net.ParseMAC` returns no error for it. -/
def validMAC (s : Str) : Prop := (ParseMAC s).2 = none

/-- The string is a valid CIDR: `net.ParseCIDR` returns no error for it. -/
def validCIDR (s : Str) : Prop := (ParseCIDR s).2.2 = none

instance validMAC.decidable (s : Str) : Decidable (validMAC s) := by
  unfold validMAC
  infer_instance

instance validCIDR.decidable (s : Str) : Decidable (validCIDR s) := by
  unfold validCIDR
  infer_instance

/-! ## Loading: which outcomes `loadConfig` has

In the statements `T` is the Unicode table `isPrintTable`, `D` the configuration source
`DecodeFile` and `f` the path `configFile`. -/

theorem loadConfig_of_failure (T : Nat → Bool) (D : Str → Decoded) (f : Str) (err : GoError)
    (h : D f = .failure err) : loadConfig T D f = (none, some err) := by
  simp [loadConfig, h]

theorem loadConfig_of_undecoded (T : Nat → Bool) (D : Str → Decoded) (f : Str) (c : config)
    (key : Str) (rest : List Str) (h : D f = .success c (key :: rest)) :
    loadConfig T D f
      = (none, some (.configError (ascii "unknown option " ++ Quote T key))) := by
  simp [loadConfig, h]

theorem loadConfig_of_decoded (T : Nat → Bool) (D : Str → Decoded) (f : Str) (c : config)
    (h : D f = .success c []) :
    loadConfig T D f
      = (some { c with Left := (c.Left.parse T).1, Right := (c.Right.parse T).1,
                       FakeTraceroute := c.FakeTraceroute, IPFirewall := c.IPFirewall },
         none) := by
  simp [loadConfig, h, configFakeTraceroute.parse, configIPFirewall.parse]

/-- The two results of `loadConfig` are never both nil and never both non-nil. -/
theorem loadConfig_result (T : Nat → Bool) (D : Str → Decoded) (f : Str) :
    (∃ err, loadConfig T D f = (none, some err)) ∨ (∃ c, loadConfig T D f = (some c, none)) := by
  cases h : D f with
  | failure err => exact Or.inl ⟨err, loadConfig_of_failure T D f err h⟩
  | success c undecoded =>
    cases undecoded with
    | nil => exact Or.inr ⟨_, loadConfig_of_decoded T D f c h⟩
    | cons key rest => exact Or.inl ⟨_, loadConfig_of_undecoded T D f c key rest h⟩

theorem Reload_of_error (T : Nat → Bool) (D : Str → Decoded) (s : server) (err : GoError)
    (h : (loadConfig T D s.confPath).2 = some err) : server.Reload T D s = (s, some err) := by
  unfold server.Reload
  rcases hl : loadConfig T D s.confPath with ⟨c, e⟩
  rw [hl] at h
  simp only at h
  subst h
  rfl

theorem Reload_of_snapshot (T : Nat → Bool) (D : Str → Decoded) (s : server) (c : config)
    (h : loadConfig T D s.confPath = (some c, none)) :
    server.Reload T D s = ({ s with conf := some c }, none) := by
  unfold server.Reload
  rw [h]

/-! ## The `%q` verb on plain names -/

theorem appendEscapedRune_plain (T : Nat → Bool) (b : Nat) (h : plainByte b) :
    appendEscapedRune T b = [b] := by
  obtain ⟨h1, h2, h3, h4⟩ := h
  have hp : IsPrint T b = true := by
    unfold IsPrint
    rw [if_pos (by omega), if_pos ⟨h1, h2⟩]
  unfold appendEscapedRune
  rw [if_neg (by omega), if_pos hp]
  unfold EncodeRune
  rw [if_pos (by omega)]

theorem appendQuotedLoop_plain (T : Nat → Bool) (s : Str) (h : ∀ b ∈ s, plainByte b) :
    appendQuotedLoop T 0 s = s := by
  induction s with
  | nil => rfl
  | cons b s ih =>
    have hb : plainByte b := h b (List.mem_cons_self b s)
    have hs : ∀ x ∈ s, plainByte x := fun x hx => h x (List.mem_cons_of_mem b hx)
    obtain ⟨h1, h2, _, _⟩ := hb
    unfold appendQuotedLoop
    have hlt : ¬ b ≥ 0x80 := by omega
    simp only [hlt, if_false]
    have hne : ¬ (True ∧ b = RuneError) := by
      unfold RuneError
      omega
    rw [if_neg hne, appendEscapedRune_plain T b (h b (List.mem_cons_self b s))]
    simp [ih hs]

theorem Quote_plain (T : Nat → Bool) (s : Str) (h : ∀ b ∈ s, plainByte b) :
    Quote T s = [34] ++ s ++ [34] := by
  unfold Quote
  rw [appendQuotedLoop_plain T s h]

/-! ## Claims on loading and publishing -/

/-- C1, the code at the failing input. The file sets `Left.IPv4 = "10.0.0.0"`, a
non-empty IPv4 field that is not a valid CIDR. `net.ParseCIDR` rejects it and
`configInterface.parse` returns that error, but `loadConfig` drops the error: it
returns the snapshot, with the field unparsed, and a nil error. -/
theorem loadConfig_returns_snapshot_despite_invalid_interface (T : Nat → Bool) :
    cfgLeftNoLength.Left.IPv4 = ascii "10.0.0.0"
    ∧ ParseCIDR (ascii "10.0.0.0")
        = (none, none, some (.ParseError (ascii "CIDR address") (ascii "10.0.0.0")))
    ∧ (cfgLeftNoLength.Left.parse T).2
        = some (.ParseError (ascii "CIDR address") (ascii "10.0.0.0"))
    ∧ loadConfig T (sourceOf cfgLeftNoLength) (ascii "peng.toml")
        = (some cfgLeftNoLength, none)
    ∧ cfgLeftNoLength.Left.ipv4Net = none := by
  refine ⟨rfl, by decide, rfl, rfl, rfl⟩

/-- C2, the code at the failing input. The file has a FakeTraceroute rule with an empty
`Address` and an IPFirewall rule with `Address = "10.0.0.0"`; neither is a valid CIDR
and both `configFakeTraceroute.parse` and `configIPFirewall.parse` return an error, but
`loadConfig` drops the errors and returns the snapshot with a nil error. -/
theorem loadConfig_returns_snapshot_despite_invalid_rule_address (T : Nat → Bool) :
    cfgBadRules.FakeTraceroute.parse.2 = some (.ParseError (ascii "CIDR address") [])
    ∧ cfgBadRules.IPFirewall.parse.2
        = some (.ParseError (ascii "CIDR address") (ascii "10.0.0.0"))
    ∧ loadConfig T (sourceOf cfgBadRules) (ascii "peng.toml") = (some cfgBadRules, none) := by
  refine ⟨by decide, by decide, rfl⟩

/-- C3, counterexample. The source decodes and leaves the one key `Foo` undecoded. The
message of the error is `unknown option "Foo"`, the name in double quotes as the verb
`%q` prints it; it is not `unknown option ` followed by the name of an undecoded key. -/
theorem unknown_option_message_is_quoted :
    (loadConfig (fun _ => false) sourceUnknownKey (ascii "peng.toml")).2
        = some (.configError (ascii "unknown option \"Foo\""))
    ∧ ¬ ∃ name ∈ [ascii "Foo"],
        (loadConfig (fun _ => false) sourceUnknownKey (ascii "peng.toml")).2
          = some (.configError (ascii "unknown option " ++ name)) := by
  decide

/-- C3, amended. When the source decodes and leaves at least one key undecoded,
`loadConfig` returns no config and a `configError` whose message is `unknown option `
followed by the first undecoded key as `%q` prints it; for a key made of printable ASCII
without `"` and `\` that is the key between double quotes. -/
theorem loadConfig_unknown_option (T : Nat → Bool) (D : Str → Decoded) (f : Str) (c : config)
    (key : Str) (rest : List Str) (h : D f = .success c (key :: rest)) :
    loadConfig T D f = (none, some (.configError (ascii "unknown option " ++ Quote T key)))
    ∧ ((∀ b ∈ key, plainByte b) →
        (loadConfig T D f).2.bind GoError.configMessage
          = some (ascii "unknown option " ++ [34] ++ key ++ [34])) := by
  have h1 := loadConfig_of_undecoded T D f c key rest h
  refine ⟨h1, fun hp => ?_⟩
  rw [h1, Quote_plain T key hp]
  simp [GoError.configMessage]

/-- C3, witness: the source that leaves the key `Foo` undecoded. -/
theorem loadConfig_unknown_option_witness :
    sourceUnknownKey (ascii "peng.toml") = .success config.zero [ascii "Foo"]
    ∧ loadConfig (fun _ => false) sourceUnknownKey (ascii "peng.toml")
        = (none, some (.configError (ascii "unknown option " ++ Quote (fun _ => false)
            (ascii "Foo"))))
    ∧ (loadConfig (fun _ => false) sourceUnknownKey (ascii "peng.toml")).2.bind
          GoError.configMessage
        = some (ascii "unknown option " ++ [34] ++ ascii "Foo" ++ [34]) :=
  ⟨rfl,
    (loadConfig_unknown_option (fun _ => false) sourceUnknownKey (ascii "peng.toml")
      config.zero (ascii "Foo") [] rfl).1,
    (loadConfig_unknown_option (fun _ => false) sourceUnknownKey (ascii "peng.toml")
      config.zero (ascii "Foo") [] rfl).2 (by decide)⟩

/-- C4. When `loadConfig` returns an error for the server's configuration source,
`server.Reload` returns that error and leaves the server as it was: `GetConf` returns
afterwards what it returned before. -/
theorem Reload_failure_publishes_nothing (T : Nat → Bool) (D : Str → Decoded) (s : server)
    (err : GoError) (h : (loadConfig T D s.confPath).2 = some err) :
    (server.Reload T D s).2 = some err
    ∧ (server.Reload T D s).1.GetConf = s.GetConf
    ∧ (server.Reload T D s).1 = s := by
  rw [Reload_of_error T D s err h]
  exact ⟨rfl, rfl, rfl⟩

/-- C4, witness: a server with a published snapshot and a source with an unknown key. -/
theorem Reload_failure_publishes_nothing_witness :
    (loadConfig (fun _ => false) sourceUnknownKey pipelineZero.s.confPath).2
        = some (.configError (ascii "unknown option \"Foo\""))
    ∧ (server.Reload (fun _ => false) sourceUnknownKey pipelineZero.s).2
        = some (.configError (ascii "unknown option \"Foo\""))
    ∧ (server.Reload (fun _ => false) sourceUnknownKey pipelineZero.s).1.GetConf
        = some config.zero :=
  ⟨by decide,
    (Reload_failure_publishes_nothing (fun _ => false) sourceUnknownKey pipelineZero.s
      (.configError (ascii "unknown option \"Foo\"")) (by decide)).1,
    (Reload_failure_publishes_nothing (fun _ => false) sourceUnknownKey pipelineZero.s
      (.configError (ascii "unknown option \"Foo\"")) (by decide)).2.1⟩

/-- C5, the code at the failing input. The file has one FakeTraceroute rule and one
IPFirewall rule with `Address = "10.0.0.0/24"`. `rule.parse()` computes the network
10.0.0.0/24 for each, but into the loop's copy of the rule: in the snapshot that
`loadConfig` returns, `addressCIDR` of both rules is nil. -/
theorem loadConfig_leaves_addressCIDR_nil (T : Nat → Bool) :
    (traceRule (ascii "10.0.0.0/24")).parse
        = ({ traceRule (ascii "10.0.0.0/24") with
              addressCIDR := some ⟨some [10, 0, 0, 0], some [255, 255, 255, 0]⟩ }, none)
    ∧ (firewallRule (ascii "10.0.0.0/24")).parse
        = ({ firewallRule (ascii "10.0.0.0/24") with
              addressCIDR := some ⟨some [10, 0, 0, 0], some [255, 255, 255, 0]⟩ }, none)
    ∧ ∃ c, loadConfig T (sourceOf cfgGoodRules) (ascii "peng.toml") = (some c, none)
        ∧ c.FakeTraceroute.Rules.map (fun r => (r.Address, r.addressCIDR))
            = [(ascii "10.0.0.0/24", none)]
        ∧ c.IPFirewall.Rules.map (fun r => (r.Address, r.addressCIDR))
            = [(ascii "10.0.0.0/24", none)] := by
  refine ⟨by decide, by decide, cfgGoodRules, rfl, rfl, rfl⟩

/-- C8. When `loadConfig` succeeds with snapshot `c`, `server.Reload` returns nil and
`GetConf` then returns exactly `c`, whatever was published before; and on the server
that `newServer` starts from, `GetConf` returns nil for as long as every `Reload` has
failed. -/
theorem Reload_success_publishes_snapshot (T : Nat → Bool) :
    (∀ (D : Str → Decoded) (s : server) (c : config),
        loadConfig T D s.confPath = (some c, none) →
        (server.Reload T D s).2 = none ∧ (server.Reload T D s).1.GetConf = some c
          ∧ (server.Reload T D s).1 = { s with conf := some c })
    ∧ (∀ (confPath : Str) (Ds : List (Str → Decoded)),
        (∀ D ∈ Ds, (loadConfig T D confPath).2 ≠ none) →
        (Ds.foldl (fun s D => (server.Reload T D s).1) (server.literal confPath)).GetConf
          = none) := by
  constructor
  · intro D s c h
    rw [Reload_of_snapshot T D s c h]
    exact ⟨rfl, rfl, rfl⟩
  · intro confPath Ds hDs
    have key : ∀ (Ds : List (Str → Decoded)) (s : server), s.confPath = confPath →
        (∀ D ∈ Ds, (loadConfig T D confPath).2 ≠ none) →
        Ds.foldl (fun s D => (server.Reload T D s).1) s = s := by
      intro Ds
      induction Ds with
      | nil => intro s _ _; rfl
      | cons D Ds ih =>
        intro s hs hall
        have hD := hall D (List.mem_cons_self D Ds)
        obtain ⟨err, herr⟩ := Option.ne_none_iff_exists'.mp hD
        rw [← hs] at herr
        rw [List.foldl_cons, Reload_of_error T D s err herr]
        exact ih s hs (fun D2 h2 => hall D2 (List.mem_cons_of_mem D h2))
    rw [key Ds (server.literal confPath) rfl hDs]
    rfl

/-- C8, witness: a reload that succeeds over a published snapshot, and two failed
reloads on a fresh server. -/
theorem Reload_success_publishes_snapshot_witness :
    loadConfig (fun _ => false) (sourceOf cfgLoss) pipelineZero.s.confPath
        = (some cfgLoss, none)
    ∧ (server.Reload (fun _ => false) (sourceOf cfgLoss) pipelineZero.s).2 = none
    ∧ (server.Reload (fun _ => false) (sourceOf cfgLoss) pipelineZero.s).1.GetConf
        = some cfgLoss
    ∧ ([sourceUnknownKey, sourceUnknownKey].foldl
          (fun s D => (server.Reload (fun _ => false) D s).1)
          (server.literal (ascii "peng.toml"))).GetConf = none :=
  ⟨rfl,
    ((Reload_success_publishes_snapshot (fun _ => false)).1 (sourceOf cfgLoss) pipelineZero.s
      cfgLoss rfl).1,
    ((Reload_success_publishes_snapshot (fun _ => false)).1 (sourceOf cfgLoss) pipelineZero.s
      cfgLoss rfl).2.1,
    (Reload_success_publishes_snapshot (fun _ => false)).2 (ascii "peng.toml")
      [sourceUnknownKey, sourceUnknownKey] (by decide)⟩

/-! ## Claims on the server and the reload goroutine -/

/-- C9, counterexample. `newServer` on a source that loads returns a server without
error, and every channel of its two module chains is nil: no chain has been built. -/
theorem newServer_builds_no_chain :
    ∃ p, newServer (fun _ => false) (sourceOf cfgLoss) (ascii "peng.toml") = (some p, none)
      ∧ p.s.LeftToRight.Bandwidth = none ∧ p.s.LeftToRight.Output = none
      ∧ p.s.RightToLeft.Bandwidth = none ∧ p.s.RightToLeft.Output = none
      ∧ ¬ (p.s.LeftToRight.Bandwidth ≠ none ∧ p.s.LeftToRight.FakeTraceroute ≠ none
          ∧ p.s.LeftToRight.Cutoff ≠ none ∧ p.s.LeftToRight.Loss ≠ none
          ∧ p.s.LeftToRight.DNSPoison ≠ none ∧ p.s.LeftToRight.DPI ≠ none
          ∧ p.s.LeftToRight.IPFirewall ≠ none ∧ p.s.LeftToRight.Latency ≠ none
          ∧ p.s.LeftToRight.BufferBloat ≠ none ∧ p.s.LeftToRight.Output ≠ none) :=
  ⟨_, rfl, rfl, rfl, rfl, rfl, by decide⟩

/-- C9, amended. Whenever `newServer` returns a server without error, a snapshot is
published and the tunnel's layer for each direction has `In` nil and `Out` and `Last`
equal to the `Output` channel of that direction's chain; `newServer` makes no channel
of a chain: all ten channels of both chains are nil at that point. -/
theorem newServer_tunnel_wired_chains_nil (T : Nat → Bool) (D : Str → Decoded)
    (confPath : Str) (p : pipeline) (h : newServer T D confPath = (some p, none)) :
    p.s.GetConf ≠ none
    ∧ p.modTunnel.LeftToRight
        = { In := none, Out := p.s.LeftToRight.Output, Last := p.s.LeftToRight.Output }
    ∧ p.modTunnel.RightToLeft
        = { In := none, Out := p.s.RightToLeft.Output, Last := p.s.RightToLeft.Output }
    ∧ p.s.LeftToRight = moduleChain.zero ∧ p.s.RightToLeft = moduleChain.zero := by
  unfold newServer at h
  rcases loadConfig_result T D confPath with ⟨err, he⟩ | ⟨c, hc⟩
  · have he2 : (loadConfig T D (server.literal confPath).confPath).2 = some err := by
      show (loadConfig T D confPath).2 = some err
      rw [he]
    rw [Reload_of_error T D _ err he2] at h
    simp at h
  · have hc2 : loadConfig T D (server.literal confPath).confPath = (some c, none) := hc
    rw [Reload_of_snapshot T D _ c hc2] at h
    simp only [Prod.mk.injEq, Option.some.injEq, and_true] at h
    subst h
    refine ⟨?_, rfl, rfl, rfl, rfl⟩
    simp [server.GetConf]

/-- C9, witness: `newServer` on a source that loads. -/
theorem newServer_tunnel_wired_chains_nil_witness :
    ∃ p, newServer (fun _ => false) (sourceOf cfgLoss) (ascii "peng.toml") = (some p, none)
      ∧ p.s.GetConf ≠ none
      ∧ p.modTunnel.LeftToRight
          = { In := none, Out := p.s.LeftToRight.Output, Last := p.s.LeftToRight.Output }
      ∧ p.s.LeftToRight = moduleChain.zero :=
  ⟨_, rfl,
    (newServer_tunnel_wired_chains_nil (fun _ => false) (sourceOf cfgLoss) (ascii "peng.toml")
      _ rfl).1,
    (newServer_tunnel_wired_chains_nil (fun _ => false) (sourceOf cfgLoss) (ascii "peng.toml")
      _ rfl).2.1,
    (newServer_tunnel_wired_chains_nil (fun _ => false) (sourceOf cfgLoss) (ascii "peng.toml")
      _ rfl).2.2.2.1⟩

/-- C7, counterexample. The published snapshot is the zero configuration; a SIGHUP
arrives when the file loads (it sets `Loss.Enabled`), and the tunnel rebuild then fails
without touching anything. The failure is logged, and `GetConf` returns the new
snapshot, not the one from before the reload request. -/
theorem reloadOnce_tunnel_failure_keeps_new_snapshot :
    pipelineZero.s.GetConf = some config.zero
    ∧ (loadConfig (fun _ => false) (sourceOf cfgLoss) pipelineZero.s.confPath).2 = none
    ∧ (reloadOnce (fun _ => false) tunnelFails (sourceOf cfgLoss) pipelineZero).2
        = [.other (ascii "rebuild failed")]
    ∧ (reloadOnce (fun _ => false) tunnelFails (sourceOf cfgLoss) pipelineZero).1.s.GetConf
        = some cfgLoss
    ∧ (reloadOnce (fun _ => false) tunnelFails (sourceOf cfgLoss) pipelineZero).1.s.GetConf
        ≠ pipelineZero.s.GetConf := by
  decide

/-- C7, amended. In one iteration of the reload goroutine: when the configuration load
fails, the pipeline (snapshot, both chains, tunnel) is as before and the error is
logged; when it succeeds with snapshot `c`, `c` is published before the tunnel rebuild
and stays published whether or not `modTunnel.Reload` fails, whose error is logged and
whose chains are installed; in every case the goroutine goes on with the next SIGHUP. -/
theorem reloadOnce_outcomes (T : Nat → Bool) (tunnelReload : TunnelReload)
    (D : Str → Decoded) (p : pipeline) :
    (∀ err, (loadConfig T D p.s.confPath).2 = some err →
        reloadOnce T tunnelReload D p = (p, [err]))
    ∧ (∀ c, loadConfig T D p.s.confPath = (some c, none) →
        (reloadOnce T tunnelReload D p).1.s.GetConf = some c
        ∧ (reloadOnce T tunnelReload D p).2
            = (tunnelReload (some c) ⟨p.s.LeftToRight, p.s.RightToLeft, p.modTunnel⟩).2.toList
        ∧ (⟨(reloadOnce T tunnelReload D p).1.s.LeftToRight,
            (reloadOnce T tunnelReload D p).1.s.RightToLeft,
            (reloadOnce T tunnelReload D p).1.modTunnel⟩ : chains)
            = (tunnelReload (some c) ⟨p.s.LeftToRight, p.s.RightToLeft, p.modTunnel⟩).1)
    ∧ (∀ rest, reloadLoop T tunnelReload (D :: rest) p
        = ((reloadLoop T tunnelReload rest (reloadOnce T tunnelReload D p).1).1,
           (reloadOnce T tunnelReload D p).2
             ++ (reloadLoop T tunnelReload rest (reloadOnce T tunnelReload D p).1).2)) := by
  refine ⟨?_, ?_, ?_⟩
  · intro err h
    unfold reloadOnce
    rw [Reload_of_error T D p.s err h]
  · intro c h
    unfold reloadOnce
    rw [Reload_of_snapshot T D p.s c h]
    dsimp only [server.GetConf]
    generalize tunnelReload (some c) ⟨p.s.LeftToRight, p.s.RightToLeft, p.modTunnel⟩ = r
    rcases r with ⟨ch, _ | err⟩ <;> exact ⟨rfl, rfl, rfl⟩
  · intro rest
    rfl

/-- C7, witness: an iteration whose load fails, and one whose tunnel rebuild fails. -/
theorem reloadOnce_outcomes_witness :
    (loadConfig (fun _ => false) sourceUnknownKey pipelineZero.s.confPath).2
        = some (.configError (ascii "unknown option \"Foo\""))
    ∧ reloadOnce (fun _ => false) tunnelFails sourceUnknownKey pipelineZero
        = (pipelineZero, [.configError (ascii "unknown option \"Foo\"")])
    ∧ (reloadOnce (fun _ => false) tunnelFails (sourceOf cfgLoss) pipelineZero).1.s.GetConf
        = some cfgLoss :=
  ⟨by decide,
    (reloadOnce_outcomes (fun _ => false) tunnelFails sourceUnknownKey pipelineZero).1
      (.configError (ascii "unknown option \"Foo\"")) (by decide),
    ((reloadOnce_outcomes (fun _ => false) tunnelFails (sourceOf cfgLoss) pipelineZero).2.1
      cfgLoss rfl).1⟩

/-! ## What `net.ParseCIDR` returns -/

theorem parseIPv4_length (s : Str) (l : List Nat) (h : parseIPv4 s = some l) :
    l.length = 16 := by
  unfold parseIPv4 at h
  split at h
  · simp at h
  · split at h
    · simp at h
    · simp only [Option.some.injEq] at h
      subst h
      rfl

theorem parseIPv6Loop_length : ∀ (k : Nat) (ip : List Nat) (e : Option Nat) (i : Nat) (s : Str)
    (r : List Nat × Option Nat × Nat × Str),
    parseIPv6Loop k ip e i s = some r → r.1.length = ip.length := by
  intro k
  induction k with
  | zero =>
    intro ip e i s r h
    simp only [parseIPv6Loop, Option.some.injEq] at h
    subst h
    rfl
  | succ k ih =>
    intro ip e i s r h
    unfold parseIPv6Loop at h
    repeat' (first | split at h | (dsimp only at h; split at h))
    all_goals first
      | (simp at h; done)
      | (simp only [Option.some.injEq] at h; subst h; simp [List.length_set])
      | (have h2 := ih _ _ _ _ _ h; simpa [List.length_set] using h2)

theorem foldl_set_length {α : Type} (ts : List Nat) (pos : Nat → Nat) (val : List α → Nat → α) :
    ∀ ip : List α, (ts.foldl (fun ip t => ip.set (pos t) (val ip t)) ip).length = ip.length := by
  induction ts with
  | nil => intro ip; rfl
  | cons t ts ih =>
    intro ip
    rw [List.foldl_cons, ih, List.length_set]

theorem expandEllipsis_length (ip : List Nat) (i e : Nat) :
    (expandEllipsis ip i e).length = ip.length := by
  unfold expandEllipsis
  simp only
  rw [foldl_set_length (List.range (IPv6len - i)) (fun t => e + (IPv6len - i) - 1 - t)
    (fun _ _ => 0)]
  rw [foldl_set_length (List.range (i - e)) (fun t => i - 1 - t + (IPv6len - i))
    (fun ip t => ip.getD (i - 1 - t) 0)]

theorem parseIPv6_length (s : Str) (l : List Nat) (h : parseIPv6 s = some l) :
    l.length = 16 := by
  unfold parseIPv6 at h
  simp only at h
  split at h
  · simp only [Option.some.injEq] at h
    subst h
    rfl
  · split at h
    · simp at h
    · rename_i ip e i s2 hloop
      have hlen := parseIPv6Loop_length _ _ _ _ _ _ hloop
      simp only [List.length_replicate] at hlen
      repeat' split at h
      all_goals first
        | (simp at h; done)
        | (simp only [Option.some.injEq] at h; subst h
           first
             | (rw [expandEllipsis_length]; exact hlen)
             | exact hlen)

/-- A successful `ParseCIDR` returns a 16-byte address and the network of the string;
a failed one returns nil for both. -/
theorem ParseCIDR_result (s : Str) :
    ParseCIDR s = (none, none, some (.ParseError (ascii "CIDR address") s))
    ∨ (∃ l ipnet, ParseCIDR s = (some l, some ipnet, none) ∧ l.length = 16
        ∧ maskedNetwork s (some l) ipnet) := by
  unfold ParseCIDR
  cases hi : IndexByteString s 47 with
  | none => exact Or.inl rfl
  | some i =>
    dsimp only
    rcases hd : dtoi (List.drop (i + 1) s) with ⟨n, j, ok⟩
    dsimp only
    by_cases hcond :
        ((if parseIPv4 (List.take i s) = none then parseIPv6 (List.take i s)
            else parseIPv4 (List.take i s)) = none
          ∨ ok = false ∨ j ≠ (List.drop (i + 1) s).length
          ∨ n > 8 * (if parseIPv4 (List.take i s) = none then IPv6len else IPv4len))
    · rw [if_pos hcond]
      exact Or.inl rfl
    · rw [if_neg hcond]
      simp only [not_or, Bool.not_eq_false, ne_eq, not_not, not_lt, gt_iff_lt] at hcond
      obtain ⟨hip, hok, hj, hn⟩ := hcond
      obtain ⟨l, hl⟩ := Option.ne_none_iff_exists'.mp hip
      have hlen : l.length = 16 := by
        by_cases h4 : parseIPv4 (List.take i s) = none
        · rw [if_pos h4] at hl
          exact parseIPv6_length _ _ hl
        · rw [if_neg h4] at hl
          exact parseIPv4_length _ _ hl
      have hbits : 8 * (if parseIPv4 (List.take i s) = none then IPv6len else IPv4len)
          = (if parseIPv4 (List.take i s) = none then 128 else 32) := by
        by_cases h4 : parseIPv4 (List.take i s) = none
        · simp [h4, IPv6len]
        · simp [h4, IPv4len]
      rw [hbits] at hn ⊢
      rw [hl]
      exact Or.inr ⟨l, ⟨IP.Mask (some l)
          (CIDRMask n (if parseIPv4 (List.take i s) = none then 128 else 32)),
          CIDRMask n (if parseIPv4 (List.take i s) = none then 128 else 32)⟩, rfl, hlen,
        i, n, hi, by rw [hd, hok, hj], hn, hl.symm, rfl, rfl⟩

/-! ## The network of `net.ParseCIDR` against the network of the specification -/

theorem leadingOnesByte_lt (ones k : Nat) : leadingOnesByte ones k < 256 := by
  unfold leadingOnesByte
  split
  · omega
  · split
    · omega
    · have : 0 < 2 ^ (8 - (ones - 8 * k)) := Nat.pow_pos (by omega)
      omega

theorem leadingOnesByte_testBit (ones j : Nat) :
    (leadingOnesByte ones (j / 8)).testBit (7 - j % 8) = decide (j < ones) := by
  have ht : j % 8 < 8 := Nat.mod_lt _ (by omega)
  have hj : j = 8 * (j / 8) + j % 8 := (Nat.div_add_mod j 8).symm
  generalize j / 8 = k at hj
  generalize j % 8 = t at hj ht
  subst hj
  unfold leadingOnesByte
  split
  · rename_i h
    have : 8 * k + t < ones := by omega
    simp only [this, decide_True]
    interval_cases t <;> decide
  · split
    · rename_i h1 h2
      have : ¬ 8 * k + t < ones := by omega
      simp [this]
    · rename_i h1 h2
      obtain ⟨r, hr⟩ : ∃ r, ones = 8 * k + r := ⟨ones - 8 * k, by omega⟩
      subst hr
      have hr1 : 0 < r := by omega
      have hr2 : r < 8 := by omega
      have e : 8 * k + r - 8 * k = r := by omega
      rw [e]
      have e2 : (8 * k + t < 8 * k + r) = (t < r) := by
        apply propext; omega
      simp only [e2]
      interval_cases r <;> interval_cases t <;> decide

theorem CIDRMaskLoop_eq : ∀ (l n : Nat),
    CIDRMaskLoop l n = (List.range l).map (leadingOnesByte n) := by
  intro l
  induction l with
  | zero => intro n; rfl
  | succ l ih =>
    intro n
    rw [List.range_succ_eq_map, List.map_cons, List.map_map]
    unfold CIDRMaskLoop
    split
    · rename_i h
      rw [ih]
      congr 1
      · unfold leadingOnesByte; rw [if_pos (by omega)]
      · apply List.map_congr_left
        intro k _
        simp only [Function.comp]
        unfold leadingOnesByte
        have e1 : (8 * (k + 1) ≤ n - 8) = (8 * (k + 1 + 1) ≤ n) := by apply propext; omega
        have e2 : (n - 8 ≤ 8 * k) = (n ≤ 8 * (k + 1)) := by apply propext; omega
        have e3 : n - 8 - 8 * k = n - 8 * (k + 1) := by omega
        simp only [e1, e2, e3]
    · rename_i h
      rw [ih]
      congr 1
      · have hn : n < 8 := by omega
        unfold leadingOnesByte
        interval_cases n <;> decide
      · apply List.map_congr_left
        intro k _
        simp only [Function.comp]
        unfold leadingOnesByte
        rw [if_neg (by omega), if_pos (by omega), if_neg (by omega), if_pos (by omega)]

theorem zipWith_land_range : ∀ (a : List Nat) (f : Nat → Nat),
    List.zipWith (fun x y => x &&& y) a ((List.range a.length).map f)
      = (List.range a.length).map (fun k => a.getD k 0 &&& f k) := by
  intro a
  induction a with
  | nil => intro f; rfl
  | cons x a ih =>
    intro f
    rw [List.length_cons, List.range_succ_eq_map, List.map_cons, List.map_map, List.map_cons,
      List.map_map, List.zipWith_cons_cons, ih]
    rfl

theorem IP_Mask_same_length (a m : List Nat) (h : a.length = m.length) :
    IP.Mask (some a) (some m) = some (List.zipWith (fun x y => x &&& y) a m) := by
  unfold IP.Mask
  have c1 : ¬ (len (some m) = IPv6len ∧ len (some a) = IPv4len
      ∧ (((some m : IPMask).getD []).take 12).all (· == 0xff) = true) := by
    simp only [len, Option.getD_some, IPv6len, IPv4len]
    omega
  simp only [c1, if_false]
  have c2 : ¬ (len (some m) = IPv4len ∧ len (some a) = IPv6len
      ∧ ((some a : IP).getD []).take 12 = v4InV6Pfx) := by
    simp only [len, Option.getD_some, IPv6len, IPv4len]
    omega
  simp only [c2, if_false]
  have c3 : ¬ len (some a) ≠ len (some m) := by
    simp only [len, Option.getD_some]
    omega
  simp only [c3, if_false, Option.getD_some]

theorem IP_Mask_v4 (l m : List Nat) (hl : l.length = 16) (hm : m.length = 4)
    (hp : l.take 12 = v4InV6Pfx) :
    IP.Mask (some l) (some m) = some (List.zipWith (fun x y => x &&& y) (l.drop 12) m) := by
  unfold IP.Mask
  have c1 : ¬ (len (some m) = IPv6len ∧ len (some l) = IPv4len
      ∧ (((some m : IPMask).getD []).take 12).all (· == 0xff) = true) := by
    simp only [len, Option.getD_some, IPv6len, IPv4len]
    omega
  simp only [c1, if_false]
  have c2 : len (some m) = IPv4len ∧ len (some l) = IPv6len
      ∧ ((some l : IP).getD []).take 12 = v4InV6Pfx := by
    simp only [len, Option.getD_some, IPv6len, IPv4len]
    exact ⟨hm, hl, hp⟩
  simp only [c2, and_self, if_true]
  have c3 : ¬ len (some (List.drop 12 l)) ≠ IPv4len := by
    simp only [len, Option.getD_some, List.length_drop, IPv4len]
    omega
  simp only [c3, if_false, Option.getD_some]

theorem parseIPv4_marker (s : Str) (l : List Nat) (h : parseIPv4 s = some l) :
    l.take 12 = v4InV6Pfx := by
  unfold parseIPv4 at h
  split at h
  · simp at h
  · split at h
    · simp at h
    · simp only [Option.some.injEq] at h
      subst h
      rfl

theorem IndexByteString_split : ∀ (s : Str) (c i : Nat), IndexByteString s c = some i →
    s = s.take i ++ c :: s.drop (i + 1) ∧ c ∉ s.take i := by
  intro s c
  induction s with
  | nil =>
    intro i h
    simp [IndexByteString] at h
  | cons x s ih =>
    intro i h
    unfold IndexByteString at h
    by_cases hx : x = c
    · subst hx
      simp at h
      subst h
      simp
    · have e : List.indexOf c (x :: s) = List.indexOf c s + 1 := by
        rw [List.indexOf_cons_ne _ hx]
      rw [e] at h
      split at h
      · rename_i hlt
        simp only [Option.some.injEq] at h
        subst h
        have hlt2 : List.indexOf c s < s.length := by
          simpa using hlt
        have := ih (List.indexOf c s) (by unfold IndexByteString; rw [if_pos hlt2])
        obtain ⟨h1, h2⟩ := this
        constructor
        · simp only [List.take_succ_cons, List.drop_succ_cons, List.cons_append]
          rw [← h1]
        · simp only [List.take_succ_cons, List.mem_cons, not_or]
          exact ⟨fun hc => hx hc.symm, h2⟩
      · simp at h

theorem dtoiLoop_all : ∀ (t : Str) (n0 i0 n i : Nat), dtoiLoop t n0 i0 = (n, i, true) →
    i = i0 + t.length →
    (∀ c ∈ t, 48 ≤ c ∧ c ≤ 57) ∧ n = t.foldl (fun n c => 10 * n + (c - 48)) n0 := by
  intro t
  induction t with
  | nil =>
    intro n0 i0 n i h _
    simp only [dtoiLoop, Prod.mk.injEq] at h
    exact ⟨by simp, by simp [h.1]⟩
  | cons c t ih =>
    intro n0 i0 n i h hi
    unfold dtoiLoop at h
    split at h
    · rename_i hd
      split at h
      · simp at h
      · have := ih _ _ _ _ h (by simp only [List.length_cons] at hi; omega)
        obtain ⟨h1, h2⟩ := this
        refine ⟨?_, ?_⟩
        · intro x hx
          rcases List.mem_cons.mp hx with rfl | hx
          · exact hd
          · exact h1 x hx
        · rw [List.foldl_cons, Nat.mul_comm 10 n0]
          exact h2
    · simp only [Prod.mk.injEq, and_true] at h
      simp only [List.length_cons] at hi
      omega

theorem dtoi_all (t : Str) (n : Nat) (h : dtoi t = (n, t.length, true)) :
    t ≠ [] ∧ (∀ c ∈ t, 48 ≤ c ∧ c ≤ 57) ∧ n = decimalValue t := by
  unfold dtoi at h
  split at h
  · simp at h
  · rename_i n1 i1 hl
    split at h
    · simp at h
    · rename_i hne
      simp only [Prod.mk.injEq, and_true] at h
      obtain ⟨rfl, rfl⟩ := h
      have := dtoiLoop_all t 0 0 _ _ hl (by omega)
      refine ⟨?_, this.1, this.2⟩
      intro ht
      subst ht
      simp at hne

theorem CIDRMask_32 (ones : Nat) (h : ones ≤ 32) :
    CIDRMask ones 32 = some ((List.range 4).map (leadingOnesByte ones)) := by
  unfold CIDRMask
  rw [if_neg (by simp [IPv4len]), if_neg (by omega), CIDRMaskLoop_eq]

theorem CIDRMask_128 (ones : Nat) (h : ones ≤ 128) :
    CIDRMask ones 128 = some ((List.range 16).map (leadingOnesByte ones)) := by
  unfold CIDRMask
  rw [if_neg (by simp [IPv6len]), if_neg (by omega), CIDRMaskLoop_eq]

/-- The network that a successful `ParseCIDR` returns is the network of the spec. -/
theorem ParseCIDR_network (s : Str) (l : List Nat) (ipnet : IPNet)
    (h : ParseCIDR s = (some l, some ipnet, none)) :
    ∃ addrText ones, hasLength s addrText ones
      ∧ ones ≤ (if parseIPv4 addrText = none then 128 else 32)
      ∧ ipnet = networkOf (if parseIPv4 addrText = none then l else l.drop 12) ones := by
  rcases ParseCIDR_result s with he | ⟨l2, ipnet2, hok, hlen, i, ones, hi, hd, hle, hip, hmask, hnet⟩
  · rw [he] at h
    simp at h
  · rw [hok] at h
    simp only [Prod.mk.injEq, Option.some.injEq, and_true] at h
    obtain ⟨rfl, rfl⟩ := h
    obtain ⟨hsplit, hnotin⟩ := IndexByteString_split s 47 i hi
    obtain ⟨hne, hdig, hval⟩ := dtoi_all _ _ hd
    refine ⟨s.take i, ones, ⟨s.drop (i + 1), hsplit, hnotin, hne, hdig, hval⟩, hle, ?_⟩
    rcases ipnet2 with ⟨nip, nmask⟩
    simp only at hmask hnet
    by_cases h4 : parseIPv4 (List.take i s) = none
    · simp only [h4, if_true] at hle hmask ⊢
      rw [CIDRMask_128 ones hle] at hmask
      subst hmask
      have e16 : (16 : Nat) = l2.length := hlen.symm
      rw [e16] at hnet ⊢
      rw [IP_Mask_same_length _ _ (by simp), zipWith_land_range] at hnet
      subst hnet
      rfl
    · simp only [h4, if_false] at hle hmask hip ⊢
      have hp := parseIPv4_marker _ _ hip.symm
      rw [CIDRMask_32 ones hle] at hmask
      subst hmask
      have hl4 : (List.drop 12 l2).length = 4 := by
        rw [List.length_drop, hlen]
      rw [IP_Mask_v4 _ _ hlen (by simp) hp] at hnet
      have e4 : (4 : Nat) = (List.drop 12 l2).length := hl4.symm
      rw [e4] at hnet ⊢
      rw [zipWith_land_range] at hnet
      subst hnet
      rfl

/-! ## What the steps of `configInterface.parse` do -/

theorem list_of_length_16 (l : List Nat) (h : l.length = 16) :
    ∃ a0 a1 a2 a3 a4 a5 a6 a7 a8 a9 a10 a11 a12 a13 a14 a15,
      l = [a0, a1, a2, a3, a4, a5, a6, a7, a8, a9, a10, a11, a12, a13, a14, a15] := by
  rcases l with _ | ⟨a0, _ | ⟨a1, _ | ⟨a2, _ | ⟨a3, _ | ⟨a4, _ | ⟨a5, _ | ⟨a6, _ | ⟨a7,
    _ | ⟨a8, _ | ⟨a9, _ | ⟨a10, _ | ⟨a11, _ | ⟨a12, _ | ⟨a13, _ | ⟨a14, _ | ⟨a15, _ | ⟨a16, l⟩⟩⟩⟩⟩⟩⟩⟩⟩⟩⟩⟩⟩⟩⟩⟩⟩
  all_goals first
    | exact ⟨_, _, _, _, _, _, _, _, _, _, _, _, _, _, _, _, rfl⟩
    | simp at h

/-- On a 16-byte address `To4` returns its last four bytes when the first twelve are
the IPv4-in-IPv6 marker `0:0:0:0:0:ffff`, and nil otherwise. -/
theorem To4_of_length_16 (l : List Nat) (h : l.length = 16) :
    (l.take 12 = v4InV6Pfx → IP.To4 (some l) = some (l.drop 12) ∧ (l.drop 12).length = 4)
    ∧ (l.take 12 ≠ v4InV6Pfx → IP.To4 (some l) = none) := by
  obtain ⟨a0, a1, a2, a3, a4, a5, a6, a7, a8, a9, a10, a11, a12, a13, a14, a15, rfl⟩ :=
    list_of_length_16 l h
  constructor
  · intro hp
    simp only [v4InV6Pfx, List.take, List.cons.injEq, and_true] at hp
    obtain ⟨rfl, rfl, rfl, rfl, rfl, rfl, rfl, rfl, rfl, rfl, rfl, rfl⟩ := hp
    exact ⟨rfl, rfl⟩
  · intro hp
    unfold IP.To4
    have h4 : ¬ len (some [a0, a1, a2, a3, a4, a5, a6, a7, a8, a9, a10, a11, a12, a13, a14,
        a15]) = IPv4len := by
      simp [len, IPv4len]
    rw [if_neg h4]
    split
    · rename_i hc
      exfalso
      apply hp
      simp [IPv6len, len] at hc
      obtain ⟨⟨rfl, rfl, rfl, rfl, rfl, rfl, rfl, rfl, rfl, rfl⟩, rfl, rfl⟩ := hc
      rfl
    · rfl

theorem To16_of_length_16 (l : List Nat) (h : l.length = 16) : IP.To16 (some l) = some l := by
  unfold IP.To16
  have h4 : ¬ len (some l) = IPv4len := by
    simp [len, IPv4len, h]
  have h6 : len (some l) = IPv6len := by
    simp [len, IPv6len, h]
  rw [if_neg h4, if_pos h6]

/-- The function `ParseMAC` returns either the error `invalid MAC address` and no
address, or an address and no error. -/
theorem ParseMAC_result (s : Str) :
    ParseMAC s = (none, some (.AddrError (ascii "invalid MAC address") s))
    ∨ ∃ hw, ParseMAC s = (some hw, none) := by
  unfold ParseMAC
  dsimp only
  repeat' split
  all_goals first
    | exact Or.inl rfl
    | exact Or.inr ⟨_, rfl⟩

/-- The hardware-address step writes only `hardwareAddr`; it returns an error exactly
when `HardwareAddr` is non-empty and `ParseMAC` rejects it. -/
theorem parseHardwareAddr_spec (c : configInterface) :
    ∃ hw e, c.parseHardwareAddr = ({ c with hardwareAddr := hw }, e)
      ∧ (e = none ↔ (c.HardwareAddr = [] ∨ (ParseMAC c.HardwareAddr).2 = none))
      ∧ (e = none ∨ e = some (.AddrError (ascii "invalid MAC address") c.HardwareAddr)) := by
  unfold configInterface.parseHardwareAddr
  by_cases h : c.HardwareAddr = []
  · refine ⟨c.hardwareAddr, none, ?_, ?_, Or.inl rfl⟩
    · rw [if_neg (not_not.mpr h)]
    · simp [h]
  · rw [if_pos h]
    rcases ParseMAC_result c.HardwareAddr with hm | ⟨hw, hm⟩
    · rw [hm]
      exact ⟨none, _, rfl, by simp [h], Or.inr rfl⟩
    · rw [hm]
      exact ⟨some hw, none, rfl, by simp [h], Or.inl rfl⟩

/-- The outcomes of the IPv4 step: skipped on an empty field; the `ParseCIDR` error; the
`configError` when the parsed address has no four-byte form; else the four-byte
address and the network. -/
theorem parseIPv4Field_spec (T : Nat → Bool) (c : configInterface) :
    (c.IPv4 = [] ∧ c.parseIPv4Field T = (c, none))
    ∨ (c.IPv4 ≠ []
        ∧ ParseCIDR c.IPv4 = (none, none, some (.ParseError (ascii "CIDR address") c.IPv4))
        ∧ c.parseIPv4Field T = ({ c with ipv4Addr := none, ipv4Net := none },
            some (.ParseError (ascii "CIDR address") c.IPv4)))
    ∨ (c.IPv4 ≠ [] ∧ ∃ l ipnet, ParseCIDR c.IPv4 = (some l, some ipnet, none)
        ∧ l.length = 16 ∧ maskedNetwork c.IPv4 (some l) ipnet
        ∧ ((l.take 12 = v4InV6Pfx ∧ (l.drop 12).length = 4
              ∧ IP.To4 (some l) = some (l.drop 12)
              ∧ c.parseIPv4Field T
                = ({ c with ipv4Addr := some (l.drop 12), ipv4Net := some ipnet }, none))
          ∨ (l.take 12 ≠ v4InV6Pfx
              ∧ c.parseIPv4Field T
                = ({ c with ipv4Addr := some l, ipv4Net := some ipnet },
                    some (.configError (ascii "invalid IPv4 " ++ Quote T c.IPv4)))))) := by
  unfold configInterface.parseIPv4Field
  by_cases h : c.IPv4 = []
  · exact Or.inl ⟨h, by simp [h]⟩
  · rw [if_pos h]
    rcases ParseCIDR_result c.IPv4 with he | ⟨l, ipnet, hok, hlen, hnet⟩
    · exact Or.inr (Or.inl ⟨h, he, by rw [he]⟩)
    · refine Or.inr (Or.inr ⟨h, l, ipnet, hok, hlen, hnet, ?_⟩)
      rw [hok]
      by_cases hp : l.take 12 = v4InV6Pfx
      · obtain ⟨h4, hl4⟩ := (To4_of_length_16 l hlen).1 hp
        refine Or.inl ⟨hp, hl4, h4, ?_⟩
        simp only [h4]
      · have h4 := (To4_of_length_16 l hlen).2 hp
        refine Or.inr ⟨hp, ?_⟩
        simp only [h4]

/-- The outcomes of the IPv6 step: skipped on an empty field; the `ParseCIDR` error;
else the 16-byte address and the network. The `configError` is never returned. -/
theorem parseIPv6Field_spec (T : Nat → Bool) (c : configInterface) :
    (c.IPv6 = [] ∧ c.parseIPv6Field T = (c, none))
    ∨ (c.IPv6 ≠ []
        ∧ ParseCIDR c.IPv6 = (none, none, some (.ParseError (ascii "CIDR address") c.IPv6))
        ∧ c.parseIPv6Field T = ({ c with ipv6Addr := none, ipv6Net := none },
            some (.ParseError (ascii "CIDR address") c.IPv6)))
    ∨ (c.IPv6 ≠ [] ∧ ∃ l ipnet, ParseCIDR c.IPv6 = (some l, some ipnet, none)
        ∧ l.length = 16 ∧ maskedNetwork c.IPv6 (some l) ipnet
        ∧ c.parseIPv6Field T = ({ c with ipv6Addr := some l, ipv6Net := some ipnet }, none)) := by
  unfold configInterface.parseIPv6Field
  by_cases h : c.IPv6 = []
  · exact Or.inl ⟨h, by simp [h]⟩
  · rw [if_pos h]
    rcases ParseCIDR_result c.IPv6 with he | ⟨l, ipnet, hok, hlen, hnet⟩
    · exact Or.inr (Or.inl ⟨h, he, by rw [he]⟩)
    · refine Or.inr (Or.inr ⟨h, l, ipnet, hok, hlen, hnet, ?_⟩)
      rw [hok]
      simp only [To16_of_length_16 l hlen]

/-- The state after a `parse` that returns nil: only the five parsed fields are
written, and each non-empty address field went through `ParseCIDR`. -/
theorem parse_ok (T : Nat → Bool) (c : configInterface) (h : (c.parse T).2 = none) :
    ∃ hw a4 n4 a6 n6,
      c.parse T = ({ c with hardwareAddr := hw, ipv4Addr := a4, ipv4Net := n4,
                            ipv6Addr := a6, ipv6Net := n6 }, none)
      ∧ (c.IPv4 ≠ [] → ∃ l ipnet, ParseCIDR c.IPv4 = (some l, some ipnet, none)
          ∧ maskedNetwork c.IPv4 (some l) ipnet ∧ l.take 12 = v4InV6Pfx
          ∧ IP.To4 (some l) = some (l.drop 12) ∧ (l.drop 12).length = 4
          ∧ a4 = some (l.drop 12) ∧ n4 = some ipnet)
      ∧ (c.IPv6 ≠ [] → ∃ l ipnet, ParseCIDR c.IPv6 = (some l, some ipnet, none)
          ∧ maskedNetwork c.IPv6 (some l) ipnet ∧ l.length = 16
          ∧ a6 = some l ∧ n6 = some ipnet) := by
  obtain ⟨hw, e1, h1, _, _⟩ := parseHardwareAddr_spec c
  unfold configInterface.parse at h ⊢
  rw [h1] at h ⊢
  cases e1 with
  | some err => simp at h
  | none =>
    dsimp only at h ⊢
    rcases parseIPv4Field_spec T { c with hardwareAddr := hw } with
      ⟨h4e, h4⟩ | ⟨_, _, h4⟩ | ⟨h4ne, l, ipnet, hok, hlen, hnet, ⟨hp, hl4, hto4, h4⟩ | ⟨_, h4⟩⟩
    · rw [h4] at h ⊢
      dsimp only at h h4e ⊢
      rcases parseIPv6Field_spec T { c with hardwareAddr := hw } with
        ⟨h6e, h6⟩ | ⟨_, _, h6⟩ | ⟨h6ne, l6, ipnet6, hok6, hlen6, hnet6, h6⟩
      · rw [h6]
        dsimp only at h6e
        exact ⟨hw, c.ipv4Addr, c.ipv4Net, c.ipv6Addr, c.ipv6Net, rfl,
          fun hne => absurd h4e hne, fun hne => absurd h6e hne⟩
      · rw [h6] at h
        simp at h
      · rw [h6]
        exact ⟨hw, c.ipv4Addr, c.ipv4Net, some l6, some ipnet6, rfl,
          fun hne => absurd h4e hne, fun _ => ⟨l6, ipnet6, hok6, hnet6, hlen6, rfl, rfl⟩⟩
    · rw [h4] at h
      simp at h
    · rw [h4] at h ⊢
      dsimp only at h hok hnet ⊢
      rcases parseIPv6Field_spec T
          { c with hardwareAddr := hw, ipv4Addr := some (l.drop 12), ipv4Net := some ipnet } with
        ⟨h6e, h6⟩ | ⟨_, _, h6⟩ | ⟨h6ne, l6, ipnet6, hok6, hlen6, hnet6, h6⟩
      · rw [h6]
        dsimp only at h6e
        exact ⟨hw, some (l.drop 12), some ipnet, c.ipv6Addr, c.ipv6Net, rfl,
          fun _ => ⟨l, ipnet, hok, hnet, hp, hto4, hl4, rfl, rfl⟩, fun hne => absurd h6e hne⟩
      · rw [h6] at h
        simp at h
      · rw [h6]
        exact ⟨hw, some (l.drop 12), some ipnet, some l6, some ipnet6, rfl,
          fun _ => ⟨l, ipnet, hok, hnet, hp, hto4, hl4, rfl, rfl⟩,
          fun _ => ⟨l6, ipnet6, hok6, hnet6, hlen6, rfl, rfl⟩⟩
    · rw [h4] at h
      simp at h

/-- Every error that `parse` returns is the `ParseMAC` error for `HardwareAddr`, the
`ParseCIDR` error for `IPv4` or `IPv6`, or the `configError` for `IPv4`. -/
theorem parse_error (T : Nat → Bool) (c : configInterface) (e : GoError)
    (h : (c.parse T).2 = some e) :
    e = .AddrError (ascii "invalid MAC address") c.HardwareAddr
    ∨ e = .ParseError (ascii "CIDR address") c.IPv4
    ∨ e = .ParseError (ascii "CIDR address") c.IPv6
    ∨ e = .configError (ascii "invalid IPv4 " ++ Quote T c.IPv4) := by
  obtain ⟨hw, e1, h1, _, he1⟩ := parseHardwareAddr_spec c
  unfold configInterface.parse at h
  rw [h1] at h
  rcases he1 with rfl | rfl
  · dsimp only at h
    rcases parseIPv4Field_spec T { c with hardwareAddr := hw } with
      ⟨_, h4⟩ | ⟨_, _, h4⟩ | ⟨_, l, ipnet, _, _, _, ⟨_, _, _, h4⟩ | ⟨_, h4⟩⟩
    · rw [h4] at h
      dsimp only at h
      rcases parseIPv6Field_spec T { c with hardwareAddr := hw } with
        ⟨_, h6⟩ | ⟨_, _, h6⟩ | ⟨_, _, _, _, _, _, h6⟩
      · rw [h6] at h
        simp at h
      · rw [h6] at h
        simp only [Option.some.injEq] at h
        exact Or.inr (Or.inr (Or.inl h.symm))
      · rw [h6] at h
        simp at h
    · rw [h4] at h
      simp only [Option.some.injEq] at h
      exact Or.inr (Or.inl h.symm)
    · rw [h4] at h
      dsimp only at h
      rcases parseIPv6Field_spec T
          { c with hardwareAddr := hw, ipv4Addr := some (l.drop 12), ipv4Net := some ipnet } with
        ⟨_, h6⟩ | ⟨_, _, h6⟩ | ⟨_, _, _, _, _, _, h6⟩
      · rw [h6] at h
        simp at h
      · rw [h6] at h
        simp only [Option.some.injEq] at h
        exact Or.inr (Or.inr (Or.inl h.symm))
      · rw [h6] at h
        simp at h
    · rw [h4] at h
      simp only [Option.some.injEq] at h
      exact Or.inr (Or.inr (Or.inr h.symm))
  · simp only [Option.some.injEq] at h
    exact Or.inl h.symm

/-- With `HardwareAddr` empty or accepted by `ParseMAC`, `parse` is its IPv4 step
followed, when that returns nil, by its IPv6 step. -/
theorem parse_after_hardwareAddr (T : Nat → Bool) (c : configInterface)
    (hmac : c.HardwareAddr = [] ∨ (ParseMAC c.HardwareAddr).2 = none) :
    ∃ hw, c.parse T =
      match configInterface.parseIPv4Field T { c with hardwareAddr := hw } with
      | (c, some err) => (c, some err)
      | (c, none) =>
        match configInterface.parseIPv6Field T c with
        | (c, some err) => (c, some err)
        | (c, none) => (c, none) := by
  obtain ⟨hw, e1, h1, hiff, _⟩ := parseHardwareAddr_spec c
  have he1 : e1 = none := hiff.mpr hmac
  subst he1
  refine ⟨hw, ?_⟩
  unfold configInterface.parse
  rw [h1]

/-! ## Claims on `configInterface.parse` -/

/-- C6. When `configInterface.parse` succeeds, a non-empty `IPv4` field reads
`address/length` and has given an `ipv4Addr` of exactly 4 bytes, the four-byte form of
the parsed address, and as `ipv4Net` the network of the string: the mask with `length`
leading one-bits and the address with the bits outside the mask cleared (4 bytes for a
dotted address, else 16); a non-empty `IPv6` field has given an `ipv6Addr` of exactly 16
bytes, the parsed address, and as `ipv6Net` the network of the string in the same
sense. The mask byte of the specification has bit `j` set exactly when `j < length`.
`IPv4 = "10.0.0.0/24"` gives the bytes `[10,0,0,0]` and the network `10.0.0.0` with mask
`255.255.255.0`; `"192.168.1.7/20"` gives network `192.168.0.0` with mask
`255.255.240.0`; `IPv6 = "2001:db8:abcd::1/33"` gives network `2001:db8:8000::` with mask
`ffff:ffff:8000::`; `IPv4 = "10.0.0.0"` makes `parse` return an error. -/
theorem parse_canonical_addresses (T : Nat → Bool) :
    (∀ c : configInterface, (c.parse T).2 = none →
      (c.IPv4 ≠ [] → ∃ l addrText ones,
          ParseCIDR c.IPv4 = (some l, (c.parse T).1.ipv4Net, none)
          ∧ hasLength c.IPv4 addrText ones
          ∧ ones ≤ (if parseIPv4 addrText = none then 128 else 32)
          ∧ l.length = 16 ∧ l.take 12 = v4InV6Pfx
          ∧ (c.parse T).1.ipv4Addr = some (l.drop 12)
          ∧ (c.parse T).1.ipv4Addr = IP.To4 (some l)
          ∧ len (c.parse T).1.ipv4Addr = 4
          ∧ (c.parse T).1.ipv4Net
              = some (networkOf (if parseIPv4 addrText = none then l else l.drop 12) ones))
      ∧ (c.IPv6 ≠ [] → ∃ l addrText ones,
          ParseCIDR c.IPv6 = (some l, (c.parse T).1.ipv6Net, none)
          ∧ hasLength c.IPv6 addrText ones
          ∧ ones ≤ (if parseIPv4 addrText = none then 128 else 32)
          ∧ (c.parse T).1.ipv6Addr = some l
          ∧ len (c.parse T).1.ipv6Addr = 16
          ∧ (c.parse T).1.ipv6Net
              = some (networkOf (if parseIPv4 addrText = none then l else l.drop 12) ones)))
    ∧ (∀ ones j, (leadingOnesByte ones (j / 8)).testBit (7 - j % 8) = decide (j < ones))
    ∧ (∀ ones k, leadingOnesByte ones k < 256)
    ∧ (ifaceIPv4 (ascii "10.0.0.0/24")).parse T
        = ({ ifaceIPv4 (ascii "10.0.0.0/24") with
              ipv4Addr := some [10, 0, 0, 0],
              ipv4Net := some ⟨some [10, 0, 0, 0], some [255, 255, 255, 0]⟩ }, none)
    ∧ (ifaceIPv4 (ascii "192.168.1.7/20")).parse T
        = ({ ifaceIPv4 (ascii "192.168.1.7/20") with
              ipv4Addr := some [192, 168, 1, 7],
              ipv4Net := some ⟨some [192, 168, 0, 0], some [255, 255, 240, 0]⟩ }, none)
    ∧ (ifaceIPv6 (ascii "2001:db8:abcd::1/33")).parse T
        = ({ ifaceIPv6 (ascii "2001:db8:abcd::1/33") with
              ipv6Addr := some [0x20, 0x01, 0x0d, 0xb8, 0xab, 0xcd, 0, 0, 0, 0, 0, 0, 0, 0, 0, 1],
              ipv6Net := some ⟨some [0x20, 0x01, 0x0d, 0xb8, 0x80, 0, 0, 0, 0, 0, 0, 0, 0, 0, 0, 0],
                some [255, 255, 255, 255, 128, 0, 0, 0, 0, 0, 0, 0, 0, 0, 0, 0]⟩ }, none)
    ∧ ((ifaceIPv4 (ascii "10.0.0.0")).parse T).2
        = some (.ParseError (ascii "CIDR address") (ascii "10.0.0.0")) := by
  refine ⟨?_, leadingOnesByte_testBit, leadingOnesByte_lt, rfl, rfl, rfl, rfl⟩
  intro c h
  obtain ⟨hw, a4, n4, a6, n6, hp, h4, h6⟩ := parse_ok T c h
  rw [hp]
  dsimp only
  constructor
  · intro hne
    obtain ⟨l, ipnet, hok, _, hpfx, hto4, hl4, rfl, rfl⟩ := h4 hne
    obtain ⟨addrText, ones, hlen, hle, hnet⟩ := ParseCIDR_network _ _ _ hok
    have h16 : l.length = 16 := by
      rw [List.length_drop] at hl4
      omega
    exact ⟨l, addrText, ones, hok, hlen, hle, h16, hpfx, rfl, hto4.symm, hl4, by rw [hnet]⟩
  · intro hne
    obtain ⟨l, ipnet, hok, _, hlen16, rfl, rfl⟩ := h6 hne
    obtain ⟨addrText, ones, hlen, hle, hnet⟩ := ParseCIDR_network _ _ _ hok
    exact ⟨l, addrText, ones, hok, hlen, hle, rfl, hlen16, by rw [hnet]⟩

/-- C6, witness: the interface with `IPv4 = "172.17.5.9/12"` and
`IPv6 = "fe80::abcd/10"`; both halves are instantiated, and the networks are
`172.16.0.0` with mask `255.240.0.0` and `fe80::` with mask `ffc0::`. -/
theorem parse_canonical_addresses_witness :
    ((ifaceBoth (ascii "172.17.5.9/12") (ascii "fe80::abcd/10")).parse (fun _ => false)).2 = none
    ∧ (∃ l addrText ones,
        ParseCIDR (ascii "172.17.5.9/12") = (some l,
          ((ifaceBoth (ascii "172.17.5.9/12") (ascii "fe80::abcd/10")).parse
            (fun _ => false)).1.ipv4Net, none)
        ∧ hasLength (ascii "172.17.5.9/12") addrText ones
        ∧ ones ≤ (if parseIPv4 addrText = none then 128 else 32)
        ∧ l.length = 16 ∧ l.take 12 = v4InV6Pfx
        ∧ ((ifaceBoth (ascii "172.17.5.9/12") (ascii "fe80::abcd/10")).parse
            (fun _ => false)).1.ipv4Addr = some (l.drop 12)
        ∧ ((ifaceBoth (ascii "172.17.5.9/12") (ascii "fe80::abcd/10")).parse
            (fun _ => false)).1.ipv4Addr = IP.To4 (some l)
        ∧ len ((ifaceBoth (ascii "172.17.5.9/12") (ascii "fe80::abcd/10")).parse
            (fun _ => false)).1.ipv4Addr = 4
        ∧ ((ifaceBoth (ascii "172.17.5.9/12") (ascii "fe80::abcd/10")).parse
            (fun _ => false)).1.ipv4Net
          = some (networkOf (if parseIPv4 addrText = none then l else l.drop 12) ones))
    ∧ (∃ l addrText ones,
        ParseCIDR (ascii "fe80::abcd/10") = (some l,
          ((ifaceBoth (ascii "172.17.5.9/12") (ascii "fe80::abcd/10")).parse
            (fun _ => false)).1.ipv6Net, none)
        ∧ hasLength (ascii "fe80::abcd/10") addrText ones
        ∧ ones ≤ (if parseIPv4 addrText = none then 128 else 32)
        ∧ ((ifaceBoth (ascii "172.17.5.9/12") (ascii "fe80::abcd/10")).parse
            (fun _ => false)).1.ipv6Addr = some l
        ∧ len ((ifaceBoth (ascii "172.17.5.9/12") (ascii "fe80::abcd/10")).parse
            (fun _ => false)).1.ipv6Addr = 16
        ∧ ((ifaceBoth (ascii "172.17.5.9/12") (ascii "fe80::abcd/10")).parse
            (fun _ => false)).1.ipv6Net
          = some (networkOf (if parseIPv4 addrText = none then l else l.drop 12) ones))
    ∧ (ifaceBoth (ascii "172.17.5.9/12") (ascii "fe80::abcd/10")).parse (fun _ => false)
        = ({ ifaceBoth (ascii "172.17.5.9/12") (ascii "fe80::abcd/10") with
              ipv4Addr := some [172, 17, 5, 9],
              ipv4Net := some ⟨some [172, 16, 0, 0], some [255, 240, 0, 0]⟩,
              ipv6Addr := some [0xfe, 0x80, 0, 0, 0, 0, 0, 0, 0, 0, 0, 0, 0, 0, 0xab, 0xcd],
              ipv6Net := some ⟨some [0xfe, 0x80, 0, 0, 0, 0, 0, 0, 0, 0, 0, 0, 0, 0, 0, 0],
                some [255, 192, 0, 0, 0, 0, 0, 0, 0, 0, 0, 0, 0, 0, 0, 0]⟩ }, none)
    ∧ networkOf [172, 17, 5, 9] 12 = ⟨some [172, 16, 0, 0], some [255, 240, 0, 0]⟩
    ∧ networkOf [0xfe, 0x80, 0, 0, 0, 0, 0, 0, 0, 0, 0, 0, 0, 0, 0xab, 0xcd] 10
        = ⟨some [0xfe, 0x80, 0, 0, 0, 0, 0, 0, 0, 0, 0, 0, 0, 0, 0, 0],
           some [255, 192, 0, 0, 0, 0, 0, 0, 0, 0, 0, 0, 0, 0, 0, 0]⟩ :=
  ⟨by decide,
    ((parse_canonical_addresses (fun _ => false)).1
      (ifaceBoth (ascii "172.17.5.9/12") (ascii "fe80::abcd/10")) (by decide)).1 (by decide),
    ((parse_canonical_addresses (fun _ => false)).1
      (ifaceBoth (ascii "172.17.5.9/12") (ascii "fe80::abcd/10")) (by decide)).2 (by decide),
    by decide, by decide, by decide⟩

/-- C10, counterexample. `IPv4 = "::ffff:10.0.0.1/128"` is a valid IPv6 CIDR (the text
is not a dotted IPv4 address, and `ParseCIDR` accepts it with a 128-bit mask); its
address is IPv4-mapped, so `To4` succeeds and `parse` returns nil, not the
`configError` `invalid IPv4`. -/
theorem parse_accepts_mapped_IPv6_in_IPv4_field :
    parseIPv4 (ascii "::ffff:10.0.0.1") = none
    ∧ ParseCIDR (ascii "::ffff:10.0.0.1/128")
        = (some [0, 0, 0, 0, 0, 0, 0, 0, 0, 0, 255, 255, 10, 0, 0, 1],
           some ⟨some [0, 0, 0, 0, 0, 0, 0, 0, 0, 0, 255, 255, 10, 0, 0, 1],
                 some (List.replicate 16 255)⟩, none)
    ∧ (ifaceIPv4 (ascii "::ffff:10.0.0.1/128")).parse (fun _ => false)
        = ({ ifaceIPv4 (ascii "::ffff:10.0.0.1/128") with
              ipv4Addr := some [10, 0, 0, 1],
              ipv4Net := some ⟨some [0, 0, 0, 0, 0, 0, 0, 0, 0, 0, 255, 255, 10, 0, 0, 1],
                               some (List.replicate 16 255)⟩ }, none)
    ∧ ((ifaceIPv4 (ascii "::ffff:10.0.0.1/128")).parse (fun _ => false)).2
        ≠ some (.configError (ascii "invalid IPv4 "
            ++ Quote (fun _ => false) (ascii "::ffff:10.0.0.1/128"))) := by
  decide

theorem ParseCIDR_nil : ¬ validCIDR [] := by
  decide

theorem invalid_IPv4_ne_invalid_IPv6 (a b : Str) :
    ascii "invalid IPv4 " ++ a ≠ ascii "invalid IPv6 " ++ b := by
  have h4 : ascii "invalid IPv4 "
      = [105, 110, 118, 97, 108, 105, 100, 32, 73, 80, 118, 52, 32] := by decide
  have h6 : ascii "invalid IPv6 "
      = [105, 110, 118, 97, 108, 105, 100, 32, 73, 80, 118, 54, 32] := by decide
  rw [h4, h6]
  simp

/-- C10, amended. `configInterface.parse` applies no address-family check to the IPv6
field: when `HardwareAddr` and `IPv4` are empty or valid and `IPv6` is any string that
`ParseCIDR` accepts, `parse` returns nil with the parsed 16-byte address as `ipv6Addr`,
and no `parse` ever returns a `configError` `invalid IPv6 ...`. An `IPv4` field that
`ParseCIDR` accepts is rejected with the `configError` `invalid IPv4 "..."` exactly when
the parsed address is not IPv4-mapped (its first twelve bytes are not `0:0:0:0:0:ffff`);
an IPv4-mapped IPv6 CIDR in the `IPv4` field is accepted. -/
theorem parse_IPv6_unchecked_IPv4_checked (T : Nat → Bool) (c : configInterface) :
    ((c.HardwareAddr = [] ∨ validMAC c.HardwareAddr) →
      (c.IPv4 = [] ∨ (validCIDR c.IPv4 ∧ IP.To4 (ParseCIDR c.IPv4).1 ≠ none)) →
      validCIDR c.IPv6 →
        (c.parse T).2 = none ∧ len (c.parse T).1.ipv6Addr = 16
          ∧ (c.parse T).1.ipv6Addr = (ParseCIDR c.IPv6).1)
    ∧ (∀ msg, (c.parse T).2 ≠ some (.configError (ascii "invalid IPv6 " ++ msg)))
    ∧ ((c.HardwareAddr = [] ∨ validMAC c.HardwareAddr) →
        ∀ l, validCIDR c.IPv4 → (ParseCIDR c.IPv4).1 = some l →
          (l.take 12 ≠ v4InV6Pfx →
            (c.parse T).2 = some (.configError (ascii "invalid IPv4 " ++ Quote T c.IPv4)))
          ∧ (l.take 12 = v4InV6Pfx →
            (c.parse T).2 ≠ some (.configError (ascii "invalid IPv4 " ++ Quote T c.IPv4)))) := by
  refine ⟨?_, ?_, ?_⟩
  · intro hmac h4hyp h6hyp
    obtain ⟨hw, hp⟩ := parse_after_hardwareAddr T c hmac
    have step6 : ∀ c2 : configInterface, c2.IPv6 = c.IPv6 →
        (configInterface.parseIPv6Field T c2).2 = none
        ∧ len (configInterface.parseIPv6Field T c2).1.ipv6Addr = 16
        ∧ (configInterface.parseIPv6Field T c2).1.ipv6Addr = (ParseCIDR c.IPv6).1 := by
      intro c2 hc2
      rcases parseIPv6Field_spec T c2 with ⟨h6e, _⟩ | ⟨_, he, _⟩ | ⟨_, l6, ipnet6, hok6, hlen6, _, h6⟩
      · rw [hc2] at h6e
        rw [h6e] at h6hyp
        exact absurd h6hyp ParseCIDR_nil
      · rw [hc2] at he
        unfold validCIDR at h6hyp
        rw [he] at h6hyp
        simp at h6hyp
      · rw [hc2] at hok6
        rw [h6, hok6]
        exact ⟨rfl, hlen6, rfl⟩
    have finish : ∀ c2 : configInterface, c2.IPv6 = c.IPv6 →
        c.parse T = (match configInterface.parseIPv6Field T c2 with
          | (c, some err) => (c, some err)
          | (c, none) => (c, none)) →
        (c.parse T).2 = none ∧ len (c.parse T).1.ipv6Addr = 16
          ∧ (c.parse T).1.ipv6Addr = (ParseCIDR c.IPv6).1 := by
      intro c2 hc2 hpc
      obtain ⟨s1, s2, s3⟩ := step6 c2 hc2
      rw [hpc]
      rcases hr : configInterface.parseIPv6Field T c2 with ⟨c3, _ | err⟩
      · rw [hr] at s1 s2 s3
        exact ⟨rfl, s2, s3⟩
      · rw [hr] at s1
        simp at s1
    rcases parseIPv4Field_spec T { c with hardwareAddr := hw } with
      ⟨_, h4⟩ | ⟨h4ne, he, _⟩ | ⟨_, l, ipnet, hok, hlen, _, ⟨_, _, _, h4⟩ | ⟨hpfx, _⟩⟩
    · rw [h4] at hp
      dsimp only at hp
      refine finish _ ?_ hp
      rfl
    · dsimp only at h4ne he
      rcases h4hyp with h | ⟨h, _⟩
      · exact absurd h h4ne
      · unfold validCIDR at h
        rw [he] at h
        simp at h
    · rw [h4] at hp
      dsimp only at hp
      refine finish _ ?_ hp
      rfl
    · dsimp only at hok
      rcases h4hyp with h | ⟨_, h⟩
      · rw [h] at hok
        have := ParseCIDR_nil
        unfold validCIDR at this
        rw [hok] at this
        simp at this
      · rw [hok] at h
        exact absurd ((To4_of_length_16 l hlen).2 hpfx) h
  · intro msg hmsg
    rcases parse_error T c _ hmsg with h | h | h | h
    · simp at h
    · simp at h
    · simp at h
    · simp only [GoError.configError.injEq] at h
      exact invalid_IPv4_ne_invalid_IPv6 _ _ h.symm
  · intro hmac l hv hl
    obtain ⟨hw, hp⟩ := parse_after_hardwareAddr T c hmac
    rcases parseIPv4Field_spec T { c with hardwareAddr := hw } with
      ⟨h4e, _⟩ | ⟨_, he, _⟩ | ⟨_, l2, ipnet, hok, _, _, ⟨hpfx, _, _, h4⟩ | ⟨hpfx, h4⟩⟩
    · dsimp only at h4e
      rw [h4e] at hv
      exact absurd hv ParseCIDR_nil
    · dsimp only at he
      unfold validCIDR at hv
      rw [he] at hv
      simp at hv
    · dsimp only at hok
      rw [hok] at hl
      simp only [Option.some.injEq] at hl
      subst hl
      refine ⟨fun hne => absurd hpfx hne, fun _ hbad => ?_⟩
      rcases parse_error T c _ hbad with h | h | h | _
      · simp at h
      · simp at h
      · simp at h
      · rw [h4] at hp
        dsimp only at hp
        rcases parseIPv6Field_spec T
            { c with hardwareAddr := hw, ipv4Addr := some (l2.drop 12), ipv4Net := some ipnet } with
          ⟨_, h6⟩ | ⟨_, _, h6⟩ | ⟨_, _, _, _, _, _, h6⟩
        · rw [h6] at hp
          rw [hp] at hbad
          simp at hbad
        · rw [h6] at hp
          rw [hp] at hbad
          simp at hbad
        · rw [h6] at hp
          rw [hp] at hbad
          simp at hbad
    · dsimp only at hok
      rw [hok] at hl
      simp only [Option.some.injEq] at hl
      subst hl
      refine ⟨fun _ => ?_, fun h => absurd h hpfx⟩
      rw [hp, h4]

/-- C10, witness: an IPv4 CIDR in the `IPv6` field is accepted, and the IPv6 CIDR
`2001:db8::1/64` in the `IPv4` field is rejected. -/
theorem parse_IPv6_unchecked_IPv4_checked_witness :
    validCIDR (ifaceIPv6 (ascii "10.0.0.0/24")).IPv6
    ∧ (ifaceIPv6 (ascii "10.0.0.0/24")).parse (fun _ => false)
        = ({ ifaceIPv6 (ascii "10.0.0.0/24") with
              ipv6Addr := some [0, 0, 0, 0, 0, 0, 0, 0, 0, 0, 255, 255, 10, 0, 0, 0],
              ipv6Net := some ⟨some [10, 0, 0, 0], some [255, 255, 255, 0]⟩ }, none)
    ∧ len ((ifaceIPv6 (ascii "10.0.0.0/24")).parse (fun _ => false)).1.ipv6Addr = 16
    ∧ validCIDR (ifaceIPv4 (ascii "2001:db8::1/64")).IPv4
    ∧ ((ifaceIPv4 (ascii "2001:db8::1/64")).parse (fun _ => false)).2
        = some (.configError (ascii "invalid IPv4 \"2001:db8::1/64\"")) :=
  ⟨by decide, by decide,
    ((parse_IPv6_unchecked_IPv4_checked (fun _ => false) (ifaceIPv6 (ascii "10.0.0.0/24"))).1
      (Or.inl rfl) (Or.inl rfl) (by decide)).2.1,
    by decide,
    (((parse_IPv6_unchecked_IPv4_checked (fun _ => false)
      (ifaceIPv4 (ascii "2001:db8::1/64"))).2.2 (Or.inl rfl)
      [32, 1, 13, 184, 0, 0, 0, 0, 0, 0, 0, 0, 0, 0, 0, 1] (by decide) (by decide)).1
      (by decide))⟩

end MasterPeng
